import Mathlib

/-!
# Gamepad input normalisation and edge detection

A shallow embedding of `game_controller.h` / `game_controller.cpp`.

Modelling conventions:

* `float` values are exact rationals (`ℚ`): `0.15f` is `3/20`, `0.5f` is `1/2`,
  `32767.0f` is `32767`, and `+ - * /` are the exact operations.  Rounding,
  infinities and NaN are outside the model; a property that rests on a division is
  stated with the divisor non-zero.  `GamepadState.ApplyDeadzoneOver` is the same body
  over any ordered field, used to speak of the function on the reals.
* `Sint16` readings are integers (`Int`); the 16-bit range is the predicate `IsSint16`.
* The process-wide statics of `GameController` are the fields of `State`, and every
  member function takes the state and returns the new one.
* What the SDL library answers (button and axis reads, the event queue, the result of
  opening a device, the list of attached devices, the tick counter) is an explicit
  argument of the function that asks for it.
-/

namespace GameController

/-! ## Data model (`game_controller.h`) -/

/-- One frame of normalised input (`struct GamepadState`), with the default member
initialisers of the source. -/
structure GamepadState where
  leftStickX : ℚ := 0
  leftStickY : ℚ := 0
  rightStickX : ℚ := 0
  rightStickY : ℚ := 0
  leftTrigger : ℚ := 0
  rightTrigger : ℚ := 0
  dpadUp : Bool := false
  dpadDown : Bool := false
  dpadLeft : Bool := false
  dpadRight : Bool := false
  buttonDown : Bool := false
  buttonRight : Bool := false
  buttonLeft : Bool := false
  buttonUp : Bool := false
  buttonL1 : Bool := false
  buttonR1 : Bool := false
  buttonL2 : Bool := false
  buttonR2 : Bool := false
  buttonL3 : Bool := false
  buttonR3 : Bool := false
  buttonStart : Bool := false
  buttonSelect : Bool := false
  buttonGuide : Bool := false
  buttonMisc : Bool := false
  connected : Bool := false
deriving DecidableEq

/-- The value-initialised snapshot `GamepadState{}`: every analog value `0`, every flag
`false`. -/
def GamepadState.default : GamepadState := {}

/-- Deadzone shaping, `GamepadState::ApplyDeadzone(value, deadzone)`. -/
def GamepadState.ApplyDeadzone (value deadzone : ℚ) : ℚ :=
  if |value| < deadzone then 0
  else
    let sign : ℚ := if value > 0 then 1 else -1
    sign * (|value| - deadzone) / (1 - deadzone)

/-! ## Constants and helpers (`game_controller.cpp`, anonymous namespace) -/

/-- The constant `STICK_DEADZONE = 0.15f`. -/
def STICK_DEADZONE : ℚ := 3 / 20

/-- The constant `TRIGGER_DIGITAL_THRESHOLD = 0.5f`. -/
def TRIGGER_DIGITAL_THRESHOLD : ℚ := 1 / 2

/-- The template `Clamp(value, minVal, maxVal)` at `float`. -/
def Clamp (value minVal maxVal : ℚ) : ℚ :=
  if value < minVal then minVal
  else if value > maxVal then maxVal
  else value

/-! ## What SDL supplies -/

/-- The gamepad buttons that `UpdateState` reads (`SDL_GAMEPAD_BUTTON_*`). -/
inductive SDL_GamepadButton where
  | SOUTH | EAST | WEST | NORTH
  | LEFT_SHOULDER | RIGHT_SHOULDER | LEFT_STICK | RIGHT_STICK
  | START | BACK | GUIDE | MISC1
  | DPAD_UP | DPAD_DOWN | DPAD_LEFT | DPAD_RIGHT
deriving DecidableEq

/-- The gamepad axes that `UpdateState` reads (`SDL_GAMEPAD_AXIS_*`). -/
inductive SDL_GamepadAxis where
  | LEFTX | LEFTY | RIGHTX | RIGHTY | LEFT_TRIGGER | RIGHT_TRIGGER
deriving DecidableEq

/-- The raw readings of one tick: the answers of `SDL_GetGamepadButton` and
`SDL_GetGamepadAxis` for the open device. -/
structure RawFrame where
  SDL_GetGamepadButton : SDL_GamepadButton → Bool
  SDL_GetGamepadAxis : SDL_GamepadAxis → Int

/-- The range of a `Sint16`. -/
def IsSint16 (v : Int) : Prop := -32768 ≤ v ∧ v ≤ 32767

instance (v : Int) : Decidable (IsSint16 v) := by
  unfold IsSint16; infer_instance

/-- A frame all of whose axis readings are in the `Sint16` range. -/
def RawFrame.WellFormed (raw : RawFrame) : Prop :=
  ∀ a : SDL_GamepadAxis, IsSint16 (raw.SDL_GetGamepadAxis a)

/-- Instance ids of joysticks (`SDL_JoystickID`). -/
abbrev SDL_JoystickID := Nat

/-- A non-null `SDL_Gamepad*`; the number only tells handles apart. -/
structure SDL_Gamepad where
  ptr : Nat
deriving DecidableEq

/-- The answers of the device service at one moment: `SDL_GetGamepads` (the empty list
stands for a null array or a zero count) and `SDL_OpenGamepad` (`none` is a null
pointer). -/
structure SDL_Devices where
  SDL_GetGamepads : List SDL_JoystickID
  SDL_OpenGamepad : SDL_JoystickID → Option SDL_Gamepad

/-- The events `Update` distinguishes, each with the device service as it answers while
the event is handled. -/
inductive SDL_Event where
  | GAMEPAD_ADDED (which : SDL_JoystickID) (sdl : SDL_Devices)
  | GAMEPAD_REMOVED (which : SDL_JoystickID) (sdl : SDL_Devices)
  | OTHER

/-! ## The controller (`class GameController`) -/

/-- The static members of `GameController`. -/
structure State where
  s_pGamepad : Option SDL_Gamepad
  s_gamepadId : SDL_JoystickID
  s_currentState : GamepadState
  s_prevState : GamepadState
  s_isVibrating : Bool
  s_vibrationEndTime : Nat

/-- The static initialisers at program start. -/
def State.static : State :=
  { s_pGamepad := none, s_gamepadId := 0, s_currentState := {}, s_prevState := {},
    s_isVibrating := false, s_vibrationEndTime := 0 }

/-- Private member `GameController::OpenGamepad(id)`. -/
def OpenGamepad (s : State) (sdl : SDL_Devices) (id : SDL_JoystickID) : State :=
  match s.s_pGamepad with
  | some _ => s
  | none =>
    match sdl.SDL_OpenGamepad id with
    | some g => { s with s_pGamepad := some g, s_gamepadId := id }
    | none => { s with s_pGamepad := none }

/-- Private member `GameController::CloseGamepad()`. -/
def CloseGamepad (s : State) : State :=
  match s.s_pGamepad with
  | some _ => { s with s_pGamepad := none, s_gamepadId := 0, s_currentState := {} }
  | none => s

/-- Member `GameController::StopVibration()`; the rumble call itself has no effect on
the state. -/
def StopVibration (s : State) : State :=
  { s with s_isVibrating := false }

/-- The lambda `normalizeAxis` of `UpdateState`. -/
def normalizeAxis (value : Int) : ℚ :=
  Clamp ((value : ℚ) / 32767) (-1) 1

/-- The lambda `normalizeTrigger` of `UpdateState`. -/
def normalizeTrigger (value : Int) : ℚ :=
  Clamp ((value : ℚ) / 32767) 0 1

/-- Private member `GameController::UpdateState()`. -/
def UpdateState (s : State) (raw : RawFrame) : State :=
  let s : State := { s with s_prevState := s.s_currentState }
  match s.s_pGamepad with
  | none =>
    { s with s_currentState := { s.s_currentState with connected := false } }
  | some _ =>
    let rawLX := normalizeAxis (raw.SDL_GetGamepadAxis .LEFTX)
    let rawLY := normalizeAxis (raw.SDL_GetGamepadAxis .LEFTY)
    let rawRX := normalizeAxis (raw.SDL_GetGamepadAxis .RIGHTX)
    let rawRY := normalizeAxis (raw.SDL_GetGamepadAxis .RIGHTY)
    let leftTrigger := normalizeTrigger (raw.SDL_GetGamepadAxis .LEFT_TRIGGER)
    let rightTrigger := normalizeTrigger (raw.SDL_GetGamepadAxis .RIGHT_TRIGGER)
    { s with
      s_currentState :=
        { s.s_currentState with
          connected := true
          buttonDown := raw.SDL_GetGamepadButton .SOUTH
          buttonRight := raw.SDL_GetGamepadButton .EAST
          buttonLeft := raw.SDL_GetGamepadButton .WEST
          buttonUp := raw.SDL_GetGamepadButton .NORTH
          buttonL1 := raw.SDL_GetGamepadButton .LEFT_SHOULDER
          buttonR1 := raw.SDL_GetGamepadButton .RIGHT_SHOULDER
          buttonL3 := raw.SDL_GetGamepadButton .LEFT_STICK
          buttonR3 := raw.SDL_GetGamepadButton .RIGHT_STICK
          buttonStart := raw.SDL_GetGamepadButton .START
          buttonSelect := raw.SDL_GetGamepadButton .BACK
          buttonGuide := raw.SDL_GetGamepadButton .GUIDE
          buttonMisc := raw.SDL_GetGamepadButton .MISC1
          dpadUp := raw.SDL_GetGamepadButton .DPAD_UP
          dpadDown := raw.SDL_GetGamepadButton .DPAD_DOWN
          dpadLeft := raw.SDL_GetGamepadButton .DPAD_LEFT
          dpadRight := raw.SDL_GetGamepadButton .DPAD_RIGHT
          leftStickX := GamepadState.ApplyDeadzone rawLX STICK_DEADZONE
          leftStickY := GamepadState.ApplyDeadzone rawLY STICK_DEADZONE
          rightStickX := GamepadState.ApplyDeadzone rawRX STICK_DEADZONE
          rightStickY := GamepadState.ApplyDeadzone rawRY STICK_DEADZONE
          leftTrigger := leftTrigger
          rightTrigger := rightTrigger
          buttonL2 := decide (leftTrigger > TRIGGER_DIGITAL_THRESHOLD)
          buttonR2 := decide (rightTrigger > TRIGGER_DIGITAL_THRESHOLD) } }

/-- The body of the `switch` in the event loop of `Update`, for one polled event. -/
def handleEvent (s : State) : SDL_Event → State
  | .GAMEPAD_ADDED which sdl =>
    match s.s_pGamepad with
    | none => OpenGamepad s sdl which
    | some _ => s
  | .GAMEPAD_REMOVED which sdl =>
    if s.s_pGamepad.isSome ∧ which = s.s_gamepadId then
      let s := CloseGamepad s
      match sdl.SDL_GetGamepads with
      | id :: _ => OpenGamepad s sdl id
      | [] => s
    else s
  | .OTHER => s

/-- The loop `while (SDL_PollEvent(&event))` of `Update` over the queued events. -/
def pollEvents (s : State) (events : List SDL_Event) : State :=
  events.foldl handleEvent s

/-- Member `GameController::Update()`: `events` is the event queue, `raw` the readings of
the open device, `ticks` the value of `SDL_GetTicks()`. -/
def Update (s : State) (events : List SDL_Event) (raw : RawFrame) (ticks : Nat) : State :=
  let s := pollEvents s events
  let s := UpdateState s raw
  if s.s_isVibrating ∧ ticks ≥ s.s_vibrationEndTime then StopVibration s else s

/-- Member `GameController::Initialize()`: `sdlInit` is the result of `SDL_Init`; the
second component is the returned `bool`. -/
def Initialize (s : State) (sdlInit : Bool) (sdl : SDL_Devices) : State × Bool :=
  if !sdlInit then (s, false)
  else
    let s : State :=
      { s_pGamepad := none, s_gamepadId := 0, s_currentState := {}, s_prevState := {},
        s_isVibrating := false, s_vibrationEndTime := 0 }
    let s :=
      match sdl.SDL_GetGamepads with
      | id :: _ => OpenGamepad s sdl id
      | [] => s
    (s, true)

/-- Member `GameController::Finalize()`. -/
def Finalize (s : State) : State :=
  CloseGamepad (StopVibration s)

/-! ## Accessors (`game_controller.h`, lines 188-245) -/

/-! ### Press -/

/-- Accessor `IsPressed_ButtonDown`. -/
def IsPressed_ButtonDown (s : State) : Bool := s.s_currentState.buttonDown

/-- Accessor `IsPressed_ButtonRight`. -/
def IsPressed_ButtonRight (s : State) : Bool := s.s_currentState.buttonRight

/-- Accessor `IsPressed_ButtonLeft`. -/
def IsPressed_ButtonLeft (s : State) : Bool := s.s_currentState.buttonLeft

/-- Accessor `IsPressed_ButtonUp`. -/
def IsPressed_ButtonUp (s : State) : Bool := s.s_currentState.buttonUp

/-- Accessor `IsPressed_L1`. -/
def IsPressed_L1 (s : State) : Bool := s.s_currentState.buttonL1

/-- Accessor `IsPressed_R1`. -/
def IsPressed_R1 (s : State) : Bool := s.s_currentState.buttonR1

/-- Accessor `IsPressed_L2`. -/
def IsPressed_L2 (s : State) : Bool := s.s_currentState.buttonL2

/-- Accessor `IsPressed_R2`. -/
def IsPressed_R2 (s : State) : Bool := s.s_currentState.buttonR2

/-- Accessor `IsPressed_L3`. -/
def IsPressed_L3 (s : State) : Bool := s.s_currentState.buttonL3

/-- Accessor `IsPressed_R3`. -/
def IsPressed_R3 (s : State) : Bool := s.s_currentState.buttonR3

/-- Accessor `IsPressed_Start`. -/
def IsPressed_Start (s : State) : Bool := s.s_currentState.buttonStart

/-- Accessor `IsPressed_Select`. -/
def IsPressed_Select (s : State) : Bool := s.s_currentState.buttonSelect

/-- Accessor `IsPressed_Guide`. -/
def IsPressed_Guide (s : State) : Bool := s.s_currentState.buttonGuide

/-- Accessor `IsPressed_Misc`. -/
def IsPressed_Misc (s : State) : Bool := s.s_currentState.buttonMisc

/-- Accessor `IsPressed_DpadUp`. -/
def IsPressed_DpadUp (s : State) : Bool := s.s_currentState.dpadUp

/-- Accessor `IsPressed_DpadDown`. -/
def IsPressed_DpadDown (s : State) : Bool := s.s_currentState.dpadDown

/-- Accessor `IsPressed_DpadLeft`. -/
def IsPressed_DpadLeft (s : State) : Bool := s.s_currentState.dpadLeft

/-- Accessor `IsPressed_DpadRight`. -/
def IsPressed_DpadRight (s : State) : Bool := s.s_currentState.dpadRight

/-! ### Trigger (rising edge) -/

/-- Accessor `IsTrigger_ButtonDown`. -/
def IsTrigger_ButtonDown (s : State) : Bool :=
  s.s_currentState.buttonDown && !s.s_prevState.buttonDown

/-- Accessor `IsTrigger_ButtonRight`. -/
def IsTrigger_ButtonRight (s : State) : Bool :=
  s.s_currentState.buttonRight && !s.s_prevState.buttonRight

/-- Accessor `IsTrigger_ButtonLeft`. -/
def IsTrigger_ButtonLeft (s : State) : Bool :=
  s.s_currentState.buttonLeft && !s.s_prevState.buttonLeft

/-- Accessor `IsTrigger_ButtonUp`. -/
def IsTrigger_ButtonUp (s : State) : Bool :=
  s.s_currentState.buttonUp && !s.s_prevState.buttonUp

/-- Accessor `IsTrigger_L1`. -/
def IsTrigger_L1 (s : State) : Bool :=
  s.s_currentState.buttonL1 && !s.s_prevState.buttonL1

/-- Accessor `IsTrigger_R1`. -/
def IsTrigger_R1 (s : State) : Bool :=
  s.s_currentState.buttonR1 && !s.s_prevState.buttonR1

/-- Accessor `IsTrigger_L2`. -/
def IsTrigger_L2 (s : State) : Bool :=
  s.s_currentState.buttonL2 && !s.s_prevState.buttonL2

/-- Accessor `IsTrigger_R2`. -/
def IsTrigger_R2 (s : State) : Bool :=
  s.s_currentState.buttonR2 && !s.s_prevState.buttonR2

/-- Accessor `IsTrigger_L3`. -/
def IsTrigger_L3 (s : State) : Bool :=
  s.s_currentState.buttonL3 && !s.s_prevState.buttonL3

/-- Accessor `IsTrigger_R3`. -/
def IsTrigger_R3 (s : State) : Bool :=
  s.s_currentState.buttonR3 && !s.s_prevState.buttonR3

/-- Accessor `IsTrigger_Start`. -/
def IsTrigger_Start (s : State) : Bool :=
  s.s_currentState.buttonStart && !s.s_prevState.buttonStart

/-- Accessor `IsTrigger_Select`. -/
def IsTrigger_Select (s : State) : Bool :=
  s.s_currentState.buttonSelect && !s.s_prevState.buttonSelect

/-- Accessor `IsTrigger_Guide`. -/
def IsTrigger_Guide (s : State) : Bool :=
  s.s_currentState.buttonGuide && !s.s_prevState.buttonGuide

/-- Accessor `IsTrigger_Misc`. -/
def IsTrigger_Misc (s : State) : Bool :=
  s.s_currentState.buttonMisc && !s.s_prevState.buttonMisc

/-- Accessor `IsTrigger_DpadUp`. -/
def IsTrigger_DpadUp (s : State) : Bool :=
  s.s_currentState.dpadUp && !s.s_prevState.dpadUp

/-- Accessor `IsTrigger_DpadDown`. -/
def IsTrigger_DpadDown (s : State) : Bool :=
  s.s_currentState.dpadDown && !s.s_prevState.dpadDown

/-- Accessor `IsTrigger_DpadLeft`. -/
def IsTrigger_DpadLeft (s : State) : Bool :=
  s.s_currentState.dpadLeft && !s.s_prevState.dpadLeft

/-- Accessor `IsTrigger_DpadRight`. -/
def IsTrigger_DpadRight (s : State) : Bool :=
  s.s_currentState.dpadRight && !s.s_prevState.dpadRight

/-! ### Release (falling edge) -/

/-- Accessor `IsRelease_ButtonDown`. -/
def IsRelease_ButtonDown (s : State) : Bool :=
  !s.s_currentState.buttonDown && s.s_prevState.buttonDown

/-- Accessor `IsRelease_ButtonRight`. -/
def IsRelease_ButtonRight (s : State) : Bool :=
  !s.s_currentState.buttonRight && s.s_prevState.buttonRight

/-- Accessor `IsRelease_ButtonLeft`. -/
def IsRelease_ButtonLeft (s : State) : Bool :=
  !s.s_currentState.buttonLeft && s.s_prevState.buttonLeft

/-- Accessor `IsRelease_ButtonUp`. -/
def IsRelease_ButtonUp (s : State) : Bool :=
  !s.s_currentState.buttonUp && s.s_prevState.buttonUp

/-- Accessor `IsRelease_L1`. -/
def IsRelease_L1 (s : State) : Bool :=
  !s.s_currentState.buttonL1 && s.s_prevState.buttonL1

/-- Accessor `IsRelease_R1`. -/
def IsRelease_R1 (s : State) : Bool :=
  !s.s_currentState.buttonR1 && s.s_prevState.buttonR1

/-- Accessor `IsRelease_L2`. -/
def IsRelease_L2 (s : State) : Bool :=
  !s.s_currentState.buttonL2 && s.s_prevState.buttonL2

/-- Accessor `IsRelease_R2`. -/
def IsRelease_R2 (s : State) : Bool :=
  !s.s_currentState.buttonR2 && s.s_prevState.buttonR2

/-- Accessor `IsRelease_L3`. -/
def IsRelease_L3 (s : State) : Bool :=
  !s.s_currentState.buttonL3 && s.s_prevState.buttonL3

/-- Accessor `IsRelease_R3`. -/
def IsRelease_R3 (s : State) : Bool :=
  !s.s_currentState.buttonR3 && s.s_prevState.buttonR3

/-- Accessor `IsRelease_Start`. -/
def IsRelease_Start (s : State) : Bool :=
  !s.s_currentState.buttonStart && s.s_prevState.buttonStart

/-- Accessor `IsRelease_Select`. -/
def IsRelease_Select (s : State) : Bool :=
  !s.s_currentState.buttonSelect && s.s_prevState.buttonSelect

/-- Accessor `IsRelease_Guide`. -/
def IsRelease_Guide (s : State) : Bool :=
  !s.s_currentState.buttonGuide && s.s_prevState.buttonGuide

/-- Accessor `IsRelease_Misc`. -/
def IsRelease_Misc (s : State) : Bool :=
  !s.s_currentState.buttonMisc && s.s_prevState.buttonMisc

/-- Accessor `IsRelease_DpadUp`. -/
def IsRelease_DpadUp (s : State) : Bool :=
  !s.s_currentState.dpadUp && s.s_prevState.dpadUp

/-- Accessor `IsRelease_DpadDown`. -/
def IsRelease_DpadDown (s : State) : Bool :=
  !s.s_currentState.dpadDown && s.s_prevState.dpadDown

/-- Accessor `IsRelease_DpadLeft`. -/
def IsRelease_DpadLeft (s : State) : Bool :=
  !s.s_currentState.dpadLeft && s.s_prevState.dpadLeft

/-- Accessor `IsRelease_DpadRight`. -/
def IsRelease_DpadRight (s : State) : Bool :=
  !s.s_currentState.dpadRight && s.s_prevState.dpadRight

/-- Accessor `IsConnected`. -/
def IsConnected (s : State) : Bool := s.s_currentState.connected

/-! ## The eighteen accessor families, indexed

The source has one hand-written accessor per button and kind.  `Button` names the
eighteen families so that a property of all of them is one statement. -/

/-- The suffixes of the accessors `IsPressed_*`, `IsTrigger_*`, `IsRelease_*`. -/
inductive Button where
  | ButtonDown
  | ButtonRight
  | ButtonLeft
  | ButtonUp
  | L1
  | R1
  | L2
  | R2
  | L3
  | R3
  | Start
  | Select
  | Guide
  | Misc
  | DpadUp
  | DpadDown
  | DpadLeft
  | DpadRight
deriving DecidableEq

/-- The field of a snapshot that carries the name of the button. -/
def GamepadState.flag (g : GamepadState) : Button → Bool
  | .ButtonDown => g.buttonDown
  | .ButtonRight => g.buttonRight
  | .ButtonLeft => g.buttonLeft
  | .ButtonUp => g.buttonUp
  | .L1 => g.buttonL1
  | .R1 => g.buttonR1
  | .L2 => g.buttonL2
  | .R2 => g.buttonR2
  | .L3 => g.buttonL3
  | .R3 => g.buttonR3
  | .Start => g.buttonStart
  | .Select => g.buttonSelect
  | .Guide => g.buttonGuide
  | .Misc => g.buttonMisc
  | .DpadUp => g.dpadUp
  | .DpadDown => g.dpadDown
  | .DpadLeft => g.dpadLeft
  | .DpadRight => g.dpadRight

/-- The accessor `IsPressed_b` of the source, selected by `b`. -/
def IsPressed (s : State) : Button → Bool
  | .ButtonDown => IsPressed_ButtonDown s
  | .ButtonRight => IsPressed_ButtonRight s
  | .ButtonLeft => IsPressed_ButtonLeft s
  | .ButtonUp => IsPressed_ButtonUp s
  | .L1 => IsPressed_L1 s
  | .R1 => IsPressed_R1 s
  | .L2 => IsPressed_L2 s
  | .R2 => IsPressed_R2 s
  | .L3 => IsPressed_L3 s
  | .R3 => IsPressed_R3 s
  | .Start => IsPressed_Start s
  | .Select => IsPressed_Select s
  | .Guide => IsPressed_Guide s
  | .Misc => IsPressed_Misc s
  | .DpadUp => IsPressed_DpadUp s
  | .DpadDown => IsPressed_DpadDown s
  | .DpadLeft => IsPressed_DpadLeft s
  | .DpadRight => IsPressed_DpadRight s

/-- The accessor `IsTrigger_b` of the source, selected by `b`. -/
def IsTrigger (s : State) : Button → Bool
  | .ButtonDown => IsTrigger_ButtonDown s
  | .ButtonRight => IsTrigger_ButtonRight s
  | .ButtonLeft => IsTrigger_ButtonLeft s
  | .ButtonUp => IsTrigger_ButtonUp s
  | .L1 => IsTrigger_L1 s
  | .R1 => IsTrigger_R1 s
  | .L2 => IsTrigger_L2 s
  | .R2 => IsTrigger_R2 s
  | .L3 => IsTrigger_L3 s
  | .R3 => IsTrigger_R3 s
  | .Start => IsTrigger_Start s
  | .Select => IsTrigger_Select s
  | .Guide => IsTrigger_Guide s
  | .Misc => IsTrigger_Misc s
  | .DpadUp => IsTrigger_DpadUp s
  | .DpadDown => IsTrigger_DpadDown s
  | .DpadLeft => IsTrigger_DpadLeft s
  | .DpadRight => IsTrigger_DpadRight s

/-- The accessor `IsRelease_b` of the source, selected by `b`. -/
def IsRelease (s : State) : Button → Bool
  | .ButtonDown => IsRelease_ButtonDown s
  | .ButtonRight => IsRelease_ButtonRight s
  | .ButtonLeft => IsRelease_ButtonLeft s
  | .ButtonUp => IsRelease_ButtonUp s
  | .L1 => IsRelease_L1 s
  | .R1 => IsRelease_R1 s
  | .L2 => IsRelease_L2 s
  | .R2 => IsRelease_R2 s
  | .L3 => IsRelease_L3 s
  | .R3 => IsRelease_R3 s
  | .Start => IsRelease_Start s
  | .Select => IsRelease_Select s
  | .Guide => IsRelease_Guide s
  | .Misc => IsRelease_Misc s
  | .DpadUp => IsRelease_DpadUp s
  | .DpadDown => IsRelease_DpadDown s
  | .DpadLeft => IsRelease_DpadLeft s
  | .DpadRight => IsRelease_DpadRight s

/-- The SDL button that `UpdateState` copies into the field of the button; `L2` and `R2`
are derived from the trigger axes and have none. -/
def Button.source : Button → Option SDL_GamepadButton
  | .ButtonDown => some .SOUTH
  | .ButtonRight => some .EAST
  | .ButtonLeft => some .WEST
  | .ButtonUp => some .NORTH
  | .L1 => some .LEFT_SHOULDER
  | .R1 => some .RIGHT_SHOULDER
  | .L2 => none
  | .R2 => none
  | .L3 => some .LEFT_STICK
  | .R3 => some .RIGHT_STICK
  | .Start => some .START
  | .Select => some .BACK
  | .Guide => some .GUIDE
  | .Misc => some .MISC1
  | .DpadUp => some .DPAD_UP
  | .DpadDown => some .DPAD_DOWN
  | .DpadLeft => some .DPAD_LEFT
  | .DpadRight => some .DPAD_RIGHT

/-! ## The deadzone function as the specification words it -/

/-- The mathematical sign function: `1`, `0` or `-1`. -/
def mathSign (v : ℚ) : ℚ :=
  if 0 < v then 1 else if v < 0 then -1 else 0

/-- The reference definition of the specification: `0` if `|v| < dz`, otherwise
`sign(v) * (|v| - dz) / (1 - dz)`. -/
def ApplyDeadzone_reference (v dz : ℚ) : ℚ :=
  if |v| < dz then 0 else mathSign v * (|v| - dz) / (1 - dz)

/-! ## Concrete inputs used by the examples -/

/-- A frame with no button down and every axis at rest. -/
def restFrame : RawFrame :=
  { SDL_GetGamepadButton := fun _ => false, SDL_GetGamepadAxis := fun _ => 0 }

/-- A frame with every button down and every axis at rest. -/
def allDownFrame : RawFrame :=
  { SDL_GetGamepadButton := fun _ => true, SDL_GetGamepadAxis := fun _ => 0 }

/-- A frame in which exactly the given button reads as `down` and every other button is up. -/
def frameWith (src : SDL_GamepadButton) (down : Bool) : RawFrame :=
  { SDL_GetGamepadButton := fun b => if b = src then down else false,
    SDL_GetGamepadAxis := fun _ => 0 }

/-- A frame with the left stick fully right and every other axis at the most negative
reading. -/
def extremeFrame : RawFrame :=
  { SDL_GetGamepadButton := fun _ => false,
    SDL_GetGamepadAxis := fun a => if a = .LEFTX then 32767 else -32768 }

/-- A frame with the left trigger read as `16384`, the right trigger as `16383`, and the
sticks at rest. -/
def triggerFrame : RawFrame :=
  { SDL_GetGamepadButton := fun _ => false,
    SDL_GetGamepadAxis := fun a =>
      if a = .LEFT_TRIGGER then 16384 else if a = .RIGHT_TRIGGER then 16383 else 0 }

/-- A device service with nothing attached. -/
def noDevices : SDL_Devices :=
  { SDL_GetGamepads := [], SDL_OpenGamepad := fun _ => none }

/-- Device 7 is open and the south button is held in the current snapshot. -/
def heldState : State :=
  { s_pGamepad := some ⟨1⟩, s_gamepadId := 7,
    s_currentState := { leftStickX := 4 / 5, buttonDown := true, connected := true },
    s_prevState := { buttonDown := true, connected := true },
    s_isVibrating := false, s_vibrationEndTime := 0 }

/-- Device 7 is open and both snapshots are the default one. -/
def freshState : State :=
  { s_pGamepad := some ⟨1⟩, s_gamepadId := 7, s_currentState := {}, s_prevState := {},
    s_isVibrating := false, s_vibrationEndTime := 0 }

/-- A device service with device 7 attached, which opens. -/
def oneDevice : SDL_Devices :=
  { SDL_GetGamepads := [7], SDL_OpenGamepad := fun _ => some ⟨1⟩ }

/-- A frame with the given reading on both trigger axes and the sticks at rest. -/
def triggersAt (r : Int) : RawFrame :=
  { SDL_GetGamepadButton := fun _ => false,
    SDL_GetGamepadAxis := fun a =>
      if a = .LEFT_TRIGGER then r else if a = .RIGHT_TRIGGER then r else 0 }

/-- A frame with the given readings on the two axes of the left stick and everything else
at rest. -/
def leftStickAt (x y : Int) : RawFrame :=
  { SDL_GetGamepadButton := fun _ => false,
    SDL_GetGamepadAxis := fun a => if a = .LEFTX then x else if a = .LEFTY then y else 0 }

/-! ## The deadzone function over other number types -/

/-- The body of `GamepadState::ApplyDeadzone`, read over an arbitrary ordered field `K`.
At `K = ℚ` it is `GamepadState.ApplyDeadzone`; at `K = ℝ` it is the real function that the
rational one is the restriction of. -/
def GamepadState.ApplyDeadzoneOver {K : Type} [LinearOrderedField K]
    (value deadzone : K) : K :=
  if |value| < deadzone then 0
  else
    let sign : K := if value > 0 then 1 else -1
    sign * (|value| - deadzone) / (1 - deadzone)

/-! ## Runs of the controller -/

/-- One call of a member function that changes the statics: opening, closing, the two
update functions, finalising, and a further call of `Initialize` (which leaves the state
alone when `SDL_Init` fails). -/
inductive Step : State → State → Prop where
  | openGamepad (s : State) (sdl : SDL_Devices) (id : SDL_JoystickID) :
      Step s (OpenGamepad s sdl id)
  | closeGamepad (s : State) : Step s (CloseGamepad s)
  | updateState (s : State) (raw : RawFrame) : Step s (UpdateState s raw)
  | update (s : State) (events : List SDL_Event) (raw : RawFrame) (ticks : Nat) :
      Step s (Update s events raw ticks)
  | finalize (s : State) : Step s (Finalize s)
  | stopVibration (s : State) : Step s (StopVibration s)
  | again (s : State) (sdlInit : Bool) (sdl : SDL_Devices) :
      Step s (Initialize s sdlInit sdl).1

/-- The states reachable from a successful `Initialize` (called in any state) by any
sequence of steps. -/
inductive Reachable : State → Prop where
  | start (s₀ : State) (sdl : SDL_Devices) : Reachable (Initialize s₀ true sdl).1
  | step {s s' : State} : Reachable s → Step s s' → Reachable s'

/-- The state after this run: `Initialize` finds and opens device 7, one tick reads every
button as down, and the next tick handles the removal of device 7 with nothing else
attached. -/
def afterRemoval : State :=
  Update (UpdateState (Initialize State.static true oneDevice).1 allDownFrame)
    [.GAMEPAD_REMOVED 7 noDevices] restFrame 0

/-! ## Lemmas about one update -/

lemma UpdateState_prevState (s : State) (raw : RawFrame) :
    (UpdateState s raw).s_prevState = s.s_currentState := by
  unfold UpdateState
  cases s.s_pGamepad <;> rfl

lemma UpdateState_pGamepad (s : State) (raw : RawFrame) :
    (UpdateState s raw).s_pGamepad = s.s_pGamepad := by
  unfold UpdateState
  cases h : s.s_pGamepad <;> simp [h]

lemma UpdateState_none (s : State) (raw : RawFrame) (h : s.s_pGamepad = none) :
    (UpdateState s raw).s_currentState = { s.s_currentState with connected := false } := by
  unfold UpdateState
  simp [h]

lemma UpdateState_connected (s : State) (raw : RawFrame) :
    (UpdateState s raw).s_currentState.connected = s.s_pGamepad.isSome := by
  unfold UpdateState
  cases h : s.s_pGamepad <;> simp [h]

lemma UpdateState_flag_source (s : State) (raw : RawFrame) (h : s.s_pGamepad ≠ none)
    (b : Button) (src : SDL_GamepadButton) (hb : b.source = some src) :
    (UpdateState s raw).s_currentState.flag b = raw.SDL_GetGamepadButton src := by
  obtain ⟨g, hg⟩ := Option.ne_none_iff_exists'.mp h
  unfold UpdateState
  cases b <;> simp [Button.source] at hb <;> subst hb <;> simp [hg, GamepadState.flag]

lemma IsPressed_eq_flag (s : State) (b : Button) :
    IsPressed s b = s.s_currentState.flag b := by
  cases b <;> rfl

lemma IsTrigger_eq_flag (s : State) (b : Button) :
    IsTrigger s b = (s.s_currentState.flag b && !s.s_prevState.flag b) := by
  cases b <;> rfl

lemma IsRelease_eq_flag (s : State) (b : Button) :
    IsRelease s b = (!s.s_currentState.flag b && s.s_prevState.flag b) := by
  cases b <;> rfl

lemma default_flag (b : Button) : GamepadState.default.flag b = false := by
  cases b <;> rfl

/-! ## Edge queries and the update cycle -/

/-- C1: for every pair of snapshots and each of the eighteen buttons `b`, `IsPressed_b` is
the field `b` of the current snapshot, `IsTrigger_b` is `current.b AND NOT previous.b`, and
`IsRelease_b` is `NOT current.b AND previous.b`, all on the field of the same name. -/
theorem accessors_read_same_field (s : State) (b : Button) :
    IsPressed s b = s.s_currentState.flag b ∧
    IsTrigger s b = (s.s_currentState.flag b && !s.s_prevState.flag b) ∧
    IsRelease s b = (!s.s_currentState.flag b && s.s_prevState.flag b) := by
  cases b <;> exact ⟨rfl, rfl, rfl⟩

/-- C2: after one call of `UpdateState` the previous snapshot is the current snapshot as it
was before the call, with a device present and with none, and the current snapshot is then
recomputed: with a device present every one of its 25 fields is written from this tick's
raw frame (`connected = true`, the sixteen copied flags, the four deadzoned sticks, the two
triggers and their two digital flags); with none, `connected` is set to `false` and the
other fields stay as they were. -/
theorem UpdateState_saves_current (s : State) (raw : RawFrame) :
    (UpdateState s raw).s_prevState = s.s_currentState ∧
    (UpdateState { s with s_pGamepad := none } raw).s_prevState = s.s_currentState ∧
    (∀ g, (UpdateState { s with s_pGamepad := some g } raw).s_prevState
        = s.s_currentState) ∧
    (UpdateState s raw).s_currentState.connected = s.s_pGamepad.isSome ∧
    (UpdateState { s with s_pGamepad := none } raw).s_currentState
      = { s.s_currentState with connected := false } ∧
    (∀ g, (UpdateState { s with s_pGamepad := some g } raw).s_currentState =
      { connected := true
        buttonDown := raw.SDL_GetGamepadButton .SOUTH
        buttonRight := raw.SDL_GetGamepadButton .EAST
        buttonLeft := raw.SDL_GetGamepadButton .WEST
        buttonUp := raw.SDL_GetGamepadButton .NORTH
        buttonL1 := raw.SDL_GetGamepadButton .LEFT_SHOULDER
        buttonR1 := raw.SDL_GetGamepadButton .RIGHT_SHOULDER
        buttonL3 := raw.SDL_GetGamepadButton .LEFT_STICK
        buttonR3 := raw.SDL_GetGamepadButton .RIGHT_STICK
        buttonStart := raw.SDL_GetGamepadButton .START
        buttonSelect := raw.SDL_GetGamepadButton .BACK
        buttonGuide := raw.SDL_GetGamepadButton .GUIDE
        buttonMisc := raw.SDL_GetGamepadButton .MISC1
        dpadUp := raw.SDL_GetGamepadButton .DPAD_UP
        dpadDown := raw.SDL_GetGamepadButton .DPAD_DOWN
        dpadLeft := raw.SDL_GetGamepadButton .DPAD_LEFT
        dpadRight := raw.SDL_GetGamepadButton .DPAD_RIGHT
        leftStickX := GamepadState.ApplyDeadzone
          (Clamp ((raw.SDL_GetGamepadAxis .LEFTX : ℚ) / 32767) (-1) 1) (3 / 20)
        leftStickY := GamepadState.ApplyDeadzone
          (Clamp ((raw.SDL_GetGamepadAxis .LEFTY : ℚ) / 32767) (-1) 1) (3 / 20)
        rightStickX := GamepadState.ApplyDeadzone
          (Clamp ((raw.SDL_GetGamepadAxis .RIGHTX : ℚ) / 32767) (-1) 1) (3 / 20)
        rightStickY := GamepadState.ApplyDeadzone
          (Clamp ((raw.SDL_GetGamepadAxis .RIGHTY : ℚ) / 32767) (-1) 1) (3 / 20)
        leftTrigger := Clamp ((raw.SDL_GetGamepadAxis .LEFT_TRIGGER : ℚ) / 32767) 0 1
        rightTrigger := Clamp ((raw.SDL_GetGamepadAxis .RIGHT_TRIGGER : ℚ) / 32767) 0 1
        buttonL2 := decide
          (Clamp ((raw.SDL_GetGamepadAxis .LEFT_TRIGGER : ℚ) / 32767) 0 1 > 1 / 2)
        buttonR2 := decide
          (Clamp ((raw.SDL_GetGamepadAxis .RIGHT_TRIGGER : ℚ) / 32767) 0 1 > 1 / 2) }) :=
  ⟨UpdateState_prevState s raw, UpdateState_prevState _ raw,
    fun _ => UpdateState_prevState _ raw, UpdateState_connected s raw, rfl, fun _ => rfl⟩

/-! ## Removal of the open device -/

lemma Update_currentState (s : State) (events : List SDL_Event) (raw : RawFrame)
    (ticks : Nat) :
    (Update s events raw ticks).s_currentState
      = (UpdateState (pollEvents s events) raw).s_currentState := by
  unfold Update
  simp only
  split <;> rfl

lemma Update_prevState (s : State) (events : List SDL_Event) (raw : RawFrame)
    (ticks : Nat) :
    (Update s events raw ticks).s_prevState = (pollEvents s events).s_currentState := by
  unfold Update
  simp only
  split <;> simp [StopVibration, UpdateState_prevState]

lemma pollEvents_removed_own (s : State) (sdl : SDL_Devices) (h : s.s_pGamepad ≠ none)
    (hnone : sdl.SDL_GetGamepads = []) :
    pollEvents s [.GAMEPAD_REMOVED s.s_gamepadId sdl]
      = { s with s_pGamepad := none, s_gamepadId := 0, s_currentState := {} } := by
  obtain ⟨g, hg⟩ := Option.ne_none_iff_exists'.mp h
  simp [pollEvents, handleEvent, hg, hnone, CloseGamepad]

/-- C4, as stated, fails: device 7 is open and the south button is held in the current
snapshot; the tick that handles the removal of device 7, with no other gamepad attached,
ends with the default current snapshot, but the previous snapshot is the default one too,
so it has `buttonDown = false` and `IsRelease_ButtonDown` is false. -/
theorem Update_removal_gives_no_release_edge :
    heldState.s_pGamepad = some ⟨1⟩ ∧ heldState.s_gamepadId = 7 ∧
    heldState.s_currentState.connected = true ∧
    heldState.s_currentState.buttonDown = true ∧
    (Update heldState [.GAMEPAD_REMOVED 7 noDevices] restFrame 0).s_currentState
      = GamepadState.default ∧
    (Update heldState [.GAMEPAD_REMOVED 7 noDevices] restFrame 0).s_prevState.buttonDown
      = false ∧
    IsRelease_ButtonDown (Update heldState [.GAMEPAD_REMOVED 7 noDevices] restFrame 0)
      = false := by
  have hp := pollEvents_removed_own heldState noDevices (by simp [heldState]) rfl
  have hc := Update_currentState heldState [.GAMEPAD_REMOVED 7 noDevices] restFrame 0
  have hv := Update_prevState heldState [.GAMEPAD_REMOVED 7 noDevices] restFrame 0
  have hid : heldState.s_gamepadId = 7 := rfl
  rw [hid] at hp
  rw [hp] at hc hv
  refine ⟨rfl, rfl, rfl, rfl, ?_, ?_, ?_⟩
  · rw [hc]; simp [UpdateState, GamepadState.default]
  · rw [hv]
  · simp [IsRelease_ButtonDown, hv]

/-- C4, amended: when an `Update` tick handles the removal of the open device and no other
gamepad is attached, `CloseGamepad` resets the current snapshot before `UpdateState` copies
it, so after the tick both the current and the previous snapshot are the default state and,
for every button `b`, `IsPressed_b`, `IsTrigger_b` and `IsRelease_b` are all false: no
release edge is produced for a button held at disconnect time. -/
theorem Update_removal_resets_both_snapshots (s : State) (sdl : SDL_Devices)
    (raw : RawFrame) (ticks : Nat) (b : Button)
    (hdev : s.s_pGamepad ≠ none) (hnone : sdl.SDL_GetGamepads = []) :
    (Update s [.GAMEPAD_REMOVED s.s_gamepadId sdl] raw ticks).s_currentState
      = GamepadState.default ∧
    (Update s [.GAMEPAD_REMOVED s.s_gamepadId sdl] raw ticks).s_prevState
      = GamepadState.default ∧
    IsPressed (Update s [.GAMEPAD_REMOVED s.s_gamepadId sdl] raw ticks) b = false ∧
    IsTrigger (Update s [.GAMEPAD_REMOVED s.s_gamepadId sdl] raw ticks) b = false ∧
    IsRelease (Update s [.GAMEPAD_REMOVED s.s_gamepadId sdl] raw ticks) b = false := by
  have hp := pollEvents_removed_own s sdl hdev hnone
  have hc := Update_currentState s [.GAMEPAD_REMOVED s.s_gamepadId sdl] raw ticks
  have hv := Update_prevState s [.GAMEPAD_REMOVED s.s_gamepadId sdl] raw ticks
  rw [hp] at hc hv
  have hc' : (Update s [.GAMEPAD_REMOVED s.s_gamepadId sdl] raw ticks).s_currentState
      = GamepadState.default := by
    rw [hc]; simp [UpdateState, GamepadState.default]
  have hv' : (Update s [.GAMEPAD_REMOVED s.s_gamepadId sdl] raw ticks).s_prevState
      = GamepadState.default := hv
  refine ⟨hc', hv', ?_, ?_, ?_⟩
  · rw [IsPressed_eq_flag, hc', default_flag]
  · rw [IsTrigger_eq_flag, hc', hv', default_flag]; rfl
  · rw [IsRelease_eq_flag, hc', hv', default_flag]; rfl

/-- Witness of `Update_removal_resets_both_snapshots` at `heldState`, whose south button is
held when device 7 is removed. -/
theorem Update_removal_resets_both_snapshots_witness :
    heldState.s_pGamepad ≠ none ∧ noDevices.SDL_GetGamepads = [] ∧
    heldState.s_currentState.buttonDown = true ∧
    ((Update heldState [.GAMEPAD_REMOVED heldState.s_gamepadId noDevices] allDownFrame
        5).s_currentState = GamepadState.default ∧
    (Update heldState [.GAMEPAD_REMOVED heldState.s_gamepadId noDevices] allDownFrame
        5).s_prevState = GamepadState.default ∧
    IsPressed (Update heldState [.GAMEPAD_REMOVED heldState.s_gamepadId noDevices]
        allDownFrame 5) .ButtonDown = false ∧
    IsTrigger (Update heldState [.GAMEPAD_REMOVED heldState.s_gamepadId noDevices]
        allDownFrame 5) .ButtonDown = false ∧
    IsRelease (Update heldState [.GAMEPAD_REMOVED heldState.s_gamepadId noDevices]
        allDownFrame 5) .ButtonDown = false) :=
  ⟨by simp [heldState], rfl, rfl,
    Update_removal_resets_both_snapshots heldState noDevices allDownFrame 5 .ButtonDown
      (by simp [heldState]) rfl⟩

/-! ## The edge sequence of a directly read button -/

/-- C5: from the initial state (both snapshots default) with a device present, for each
directly read button `b` (copied from the SDL button `src`), four consecutive update ticks
whose raw reads of `src` are false, true, true, false give `IsTrigger_b` = false, true,
false, false and `IsRelease_b` = false, false, false, true after the respective ticks, and
`IsPressed_b` equals the raw read after each tick.  Only the current snapshot of the
starting state has to be the default one: the first tick overwrites the previous one. -/
theorem edge_sequence_of_direct_button (b : Button) (src : SDL_GamepadButton)
    (s₀ : State) (f₁ f₂ f₃ f₄ : RawFrame)
    (hb : b.source = some src) (hdev : s₀.s_pGamepad ≠ none)
    (hcur : s₀.s_currentState = GamepadState.default)
    (h₁ : f₁.SDL_GetGamepadButton src = false) (h₂ : f₂.SDL_GetGamepadButton src = true)
    (h₃ : f₃.SDL_GetGamepadButton src = true) (h₄ : f₄.SDL_GetGamepadButton src = false) :
    (IsTrigger (UpdateState s₀ f₁) b = false ∧
      IsTrigger (UpdateState (UpdateState s₀ f₁) f₂) b = true ∧
      IsTrigger (UpdateState (UpdateState (UpdateState s₀ f₁) f₂) f₃) b = false ∧
      IsTrigger (UpdateState (UpdateState (UpdateState (UpdateState s₀ f₁) f₂) f₃) f₄) b
        = false) ∧
    (IsRelease (UpdateState s₀ f₁) b = false ∧
      IsRelease (UpdateState (UpdateState s₀ f₁) f₂) b = false ∧
      IsRelease (UpdateState (UpdateState (UpdateState s₀ f₁) f₂) f₃) b = false ∧
      IsRelease (UpdateState (UpdateState (UpdateState (UpdateState s₀ f₁) f₂) f₃) f₄) b
        = true) ∧
    (IsPressed (UpdateState s₀ f₁) b = f₁.SDL_GetGamepadButton src ∧
      IsPressed (UpdateState (UpdateState s₀ f₁) f₂) b = f₂.SDL_GetGamepadButton src ∧
      IsPressed (UpdateState (UpdateState (UpdateState s₀ f₁) f₂) f₃) b
        = f₃.SDL_GetGamepadButton src ∧
      IsPressed (UpdateState (UpdateState (UpdateState (UpdateState s₀ f₁) f₂) f₃) f₄) b
        = f₄.SDL_GetGamepadButton src) := by
  have d₁ : (UpdateState s₀ f₁).s_pGamepad ≠ none := by
    rw [UpdateState_pGamepad]; exact hdev
  have d₂ : (UpdateState (UpdateState s₀ f₁) f₂).s_pGamepad ≠ none := by
    rw [UpdateState_pGamepad]; exact d₁
  have d₃ : (UpdateState (UpdateState (UpdateState s₀ f₁) f₂) f₃).s_pGamepad ≠ none := by
    rw [UpdateState_pGamepad]; exact d₂
  have c₁ := UpdateState_flag_source s₀ f₁ hdev b src hb
  have c₂ := UpdateState_flag_source _ f₂ d₁ b src hb
  have c₃ := UpdateState_flag_source _ f₃ d₂ b src hb
  have c₄ := UpdateState_flag_source _ f₄ d₃ b src hb
  have p₀ : s₀.s_currentState.flag b = false := by rw [hcur, default_flag]
  simp only [IsTrigger_eq_flag, IsRelease_eq_flag, IsPressed_eq_flag,
    UpdateState_prevState, c₁, c₂, c₃, c₄, h₁, h₂, h₃, h₄, p₀]
  simp

/-- Witness of `edge_sequence_of_direct_button` for the south button on device 7. -/
theorem edge_sequence_of_direct_button_witness :
    Button.source .ButtonDown = some .SOUTH ∧ freshState.s_pGamepad ≠ none ∧
    freshState.s_currentState = GamepadState.default ∧
    (IsTrigger (UpdateState freshState (frameWith .SOUTH false)) .ButtonDown = false ∧
      IsTrigger (UpdateState (UpdateState freshState (frameWith .SOUTH false))
        (frameWith .SOUTH true)) .ButtonDown = true ∧
      IsTrigger (UpdateState (UpdateState (UpdateState freshState (frameWith .SOUTH false))
        (frameWith .SOUTH true)) (frameWith .SOUTH true)) .ButtonDown = false ∧
      IsTrigger (UpdateState (UpdateState (UpdateState (UpdateState freshState
        (frameWith .SOUTH false)) (frameWith .SOUTH true)) (frameWith .SOUTH true))
        (frameWith .SOUTH false)) .ButtonDown = false) ∧
    (IsRelease (UpdateState freshState (frameWith .SOUTH false)) .ButtonDown = false ∧
      IsRelease (UpdateState (UpdateState freshState (frameWith .SOUTH false))
        (frameWith .SOUTH true)) .ButtonDown = false ∧
      IsRelease (UpdateState (UpdateState (UpdateState freshState (frameWith .SOUTH false))
        (frameWith .SOUTH true)) (frameWith .SOUTH true)) .ButtonDown = false ∧
      IsRelease (UpdateState (UpdateState (UpdateState (UpdateState freshState
        (frameWith .SOUTH false)) (frameWith .SOUTH true)) (frameWith .SOUTH true))
        (frameWith .SOUTH false)) .ButtonDown = true) ∧
    (IsPressed (UpdateState freshState (frameWith .SOUTH false)) .ButtonDown
        = (frameWith .SOUTH false).SDL_GetGamepadButton .SOUTH ∧
      IsPressed (UpdateState (UpdateState freshState (frameWith .SOUTH false))
        (frameWith .SOUTH true)) .ButtonDown
        = (frameWith .SOUTH true).SDL_GetGamepadButton .SOUTH ∧
      IsPressed (UpdateState (UpdateState (UpdateState freshState (frameWith .SOUTH false))
        (frameWith .SOUTH true)) (frameWith .SOUTH true)) .ButtonDown
        = (frameWith .SOUTH true).SDL_GetGamepadButton .SOUTH ∧
      IsPressed (UpdateState (UpdateState (UpdateState (UpdateState freshState
        (frameWith .SOUTH false)) (frameWith .SOUTH true)) (frameWith .SOUTH true))
        (frameWith .SOUTH false)) .ButtonDown
        = (frameWith .SOUTH false).SDL_GetGamepadButton .SOUTH) :=
  ⟨rfl, by simp [freshState], rfl,
    edge_sequence_of_direct_button .ButtonDown .SOUTH freshState
      (frameWith .SOUTH false) (frameWith .SOUTH true) (frameWith .SOUTH true)
      (frameWith .SOUTH false) rfl (by simp [freshState]) rfl rfl rfl rfl rfl⟩

/-! ## Bounds of the normalised values -/

lemma Clamp_mem (value minVal maxVal : ℚ) (h : minVal ≤ maxVal) :
    minVal ≤ Clamp value minVal maxVal ∧ Clamp value minVal maxVal ≤ maxVal := by
  unfold Clamp
  split_ifs with h₁ h₂
  · exact ⟨le_refl _, h⟩
  · exact ⟨h, le_refl _⟩
  · exact ⟨not_lt.mp h₁, not_lt.mp h₂⟩

lemma ApplyDeadzone_of_abs_lt (value deadzone : ℚ) (h : |value| < deadzone) :
    GamepadState.ApplyDeadzone value deadzone = 0 := by
  unfold GamepadState.ApplyDeadzone
  rw [if_pos h]

lemma ApplyDeadzone_of_pos (value deadzone : ℚ) (h : ¬ |value| < deadzone)
    (hv : 0 < value) :
    GamepadState.ApplyDeadzone value deadzone = (value - deadzone) / (1 - deadzone) := by
  unfold GamepadState.ApplyDeadzone
  rw [if_neg h]
  simp only [gt_iff_lt, if_pos hv, abs_of_pos hv, one_mul]

lemma ApplyDeadzone_of_nonpos (value deadzone : ℚ) (h : ¬ |value| < deadzone)
    (hv : value ≤ 0) :
    GamepadState.ApplyDeadzone value deadzone
      = -((-value - deadzone) / (1 - deadzone)) := by
  unfold GamepadState.ApplyDeadzone
  rw [if_neg h]
  simp only [gt_iff_lt, if_neg (not_lt.mpr hv), abs_of_nonpos hv]
  ring

lemma ApplyDeadzone_mem (value deadzone : ℚ) (hdz : deadzone < 1)
    (hlo : -1 ≤ value) (hhi : value ≤ 1) :
    -1 ≤ GamepadState.ApplyDeadzone value deadzone ∧
    GamepadState.ApplyDeadzone value deadzone ≤ 1 := by
  have hden : 0 < 1 - deadzone := by linarith
  by_cases h : |value| < deadzone
  · rw [ApplyDeadzone_of_abs_lt _ _ h]; constructor <;> norm_num
  · have hge : deadzone ≤ |value| := not_lt.mp h
    rcases lt_or_le 0 value with hv | hv
    · rw [ApplyDeadzone_of_pos _ _ h hv]
      rw [abs_of_pos hv] at hge
      constructor
      · have : 0 ≤ (value - deadzone) / (1 - deadzone) :=
          div_nonneg (by linarith) hden.le
        linarith
      · rw [div_le_one hden]; linarith
    · rw [ApplyDeadzone_of_nonpos _ _ h hv]
      rw [abs_of_nonpos hv] at hge
      constructor
      · have : (-value - deadzone) / (1 - deadzone) ≤ 1 := by
          rw [div_le_one hden]; linarith
        linarith
      · have : 0 ≤ (-value - deadzone) / (1 - deadzone) :=
          div_nonneg (by linarith) hden.le
        linarith

lemma UpdateState_some (s : State) (raw : RawFrame) (h : s.s_pGamepad ≠ none) :
    (UpdateState s raw).s_currentState =
      { connected := true
        buttonDown := raw.SDL_GetGamepadButton .SOUTH
        buttonRight := raw.SDL_GetGamepadButton .EAST
        buttonLeft := raw.SDL_GetGamepadButton .WEST
        buttonUp := raw.SDL_GetGamepadButton .NORTH
        buttonL1 := raw.SDL_GetGamepadButton .LEFT_SHOULDER
        buttonR1 := raw.SDL_GetGamepadButton .RIGHT_SHOULDER
        buttonL3 := raw.SDL_GetGamepadButton .LEFT_STICK
        buttonR3 := raw.SDL_GetGamepadButton .RIGHT_STICK
        buttonStart := raw.SDL_GetGamepadButton .START
        buttonSelect := raw.SDL_GetGamepadButton .BACK
        buttonGuide := raw.SDL_GetGamepadButton .GUIDE
        buttonMisc := raw.SDL_GetGamepadButton .MISC1
        dpadUp := raw.SDL_GetGamepadButton .DPAD_UP
        dpadDown := raw.SDL_GetGamepadButton .DPAD_DOWN
        dpadLeft := raw.SDL_GetGamepadButton .DPAD_LEFT
        dpadRight := raw.SDL_GetGamepadButton .DPAD_RIGHT
        leftStickX := GamepadState.ApplyDeadzone
          (normalizeAxis (raw.SDL_GetGamepadAxis .LEFTX)) STICK_DEADZONE
        leftStickY := GamepadState.ApplyDeadzone
          (normalizeAxis (raw.SDL_GetGamepadAxis .LEFTY)) STICK_DEADZONE
        rightStickX := GamepadState.ApplyDeadzone
          (normalizeAxis (raw.SDL_GetGamepadAxis .RIGHTX)) STICK_DEADZONE
        rightStickY := GamepadState.ApplyDeadzone
          (normalizeAxis (raw.SDL_GetGamepadAxis .RIGHTY)) STICK_DEADZONE
        leftTrigger := normalizeTrigger (raw.SDL_GetGamepadAxis .LEFT_TRIGGER)
        rightTrigger := normalizeTrigger (raw.SDL_GetGamepadAxis .RIGHT_TRIGGER)
        buttonL2 := decide (normalizeTrigger (raw.SDL_GetGamepadAxis .LEFT_TRIGGER)
          > TRIGGER_DIGITAL_THRESHOLD)
        buttonR2 := decide (normalizeTrigger (raw.SDL_GetGamepadAxis .RIGHT_TRIGGER)
          > TRIGGER_DIGITAL_THRESHOLD) } := by
  obtain ⟨g, hg⟩ := Option.ne_none_iff_exists'.mp h
  unfold UpdateState
  simp [hg]

lemma stick_mem (value : Int) :
    -1 ≤ GamepadState.ApplyDeadzone (normalizeAxis value) STICK_DEADZONE ∧
    GamepadState.ApplyDeadzone (normalizeAxis value) STICK_DEADZONE ≤ 1 := by
  have hc := Clamp_mem ((value : ℚ) / 32767) (-1) 1 (by norm_num)
  exact ApplyDeadzone_mem _ _ (by norm_num [STICK_DEADZONE]) hc.1 hc.2

lemma trigger_mem (value : Int) :
    0 ≤ normalizeTrigger value ∧ normalizeTrigger value ≤ 1 :=
  Clamp_mem ((value : ℚ) / 32767) 0 1 (by norm_num)

/-- C6: for every signed 16-bit raw axis reading taken with a device present, after
`UpdateState` each of `leftStickX`, `leftStickY`, `rightStickX`, `rightStickY` lies in
`[-1, 1]` and each of `leftTrigger`, `rightTrigger` lies in `[0, 1]`.  The clamp makes this
hold for every integer reading, so the 16-bit range is not needed as an assumption. -/
theorem UpdateState_analog_ranges (s : State) (raw : RawFrame)
    (hdev : s.s_pGamepad ≠ none) :
    (-1 ≤ (UpdateState s raw).s_currentState.leftStickX ∧
      (UpdateState s raw).s_currentState.leftStickX ≤ 1) ∧
    (-1 ≤ (UpdateState s raw).s_currentState.leftStickY ∧
      (UpdateState s raw).s_currentState.leftStickY ≤ 1) ∧
    (-1 ≤ (UpdateState s raw).s_currentState.rightStickX ∧
      (UpdateState s raw).s_currentState.rightStickX ≤ 1) ∧
    (-1 ≤ (UpdateState s raw).s_currentState.rightStickY ∧
      (UpdateState s raw).s_currentState.rightStickY ≤ 1) ∧
    (0 ≤ (UpdateState s raw).s_currentState.leftTrigger ∧
      (UpdateState s raw).s_currentState.leftTrigger ≤ 1) ∧
    (0 ≤ (UpdateState s raw).s_currentState.rightTrigger ∧
      (UpdateState s raw).s_currentState.rightTrigger ≤ 1) := by
  rw [UpdateState_some s raw hdev]
  exact ⟨stick_mem _, stick_mem _, stick_mem _, stick_mem _, trigger_mem _, trigger_mem _⟩

/-- Witness of `UpdateState_analog_ranges`: device 7 open, left stick fully right
(`32767`), every other axis at the most negative reading (`-32768`). -/
theorem UpdateState_analog_ranges_witness :
    freshState.s_pGamepad ≠ none ∧ extremeFrame.WellFormed ∧
    ((-1 ≤ (UpdateState freshState extremeFrame).s_currentState.leftStickX ∧
      (UpdateState freshState extremeFrame).s_currentState.leftStickX ≤ 1) ∧
    (-1 ≤ (UpdateState freshState extremeFrame).s_currentState.leftStickY ∧
      (UpdateState freshState extremeFrame).s_currentState.leftStickY ≤ 1) ∧
    (-1 ≤ (UpdateState freshState extremeFrame).s_currentState.rightStickX ∧
      (UpdateState freshState extremeFrame).s_currentState.rightStickX ≤ 1) ∧
    (-1 ≤ (UpdateState freshState extremeFrame).s_currentState.rightStickY ∧
      (UpdateState freshState extremeFrame).s_currentState.rightStickY ≤ 1) ∧
    (0 ≤ (UpdateState freshState extremeFrame).s_currentState.leftTrigger ∧
      (UpdateState freshState extremeFrame).s_currentState.leftTrigger ≤ 1) ∧
    (0 ≤ (UpdateState freshState extremeFrame).s_currentState.rightTrigger ∧
      (UpdateState freshState extremeFrame).s_currentState.rightTrigger ≤ 1)) :=
  ⟨by simp [freshState],
    by intro a; cases a <;> simp [extremeFrame, IsSint16],
    UpdateState_analog_ranges freshState extremeFrame (by simp [freshState])⟩

/-! ## The deadzone function -/

/-- C7: for every value `v` and every deadzone `dz` with `0 <= dz < 1`, `ApplyDeadzone(v, dz)`
equals the reference definition: `0` if `|v| < dz`, otherwise
`sign(v) * (|v| - dz) / (1 - dz)` with the mathematical sign function. -/
theorem ApplyDeadzone_eq_reference (value deadzone : ℚ)
    (h₀ : 0 ≤ deadzone) (_h₁ : deadzone < 1) :
    GamepadState.ApplyDeadzone value deadzone = ApplyDeadzone_reference value deadzone := by
  unfold ApplyDeadzone_reference
  by_cases h : |value| < deadzone
  · rw [ApplyDeadzone_of_abs_lt _ _ h, if_pos h]
  · rw [if_neg h]
    rcases lt_trichotomy value 0 with hv | hv | hv
    · rw [ApplyDeadzone_of_nonpos _ _ h hv.le]
      simp only [mathSign, if_neg (not_lt.mpr hv.le), if_pos hv, abs_of_neg hv]
      ring
    · subst hv
      have hdz : deadzone = 0 := le_antisymm (by simpa using h) h₀
      subst hdz
      simp [GamepadState.ApplyDeadzone, mathSign]
    · rw [ApplyDeadzone_of_pos _ _ h hv]
      simp only [mathSign, if_pos hv, abs_of_pos hv, one_mul]

/-- Witness of `ApplyDeadzone_eq_reference` at `v = 0`, `dz = 0`, where the sign used by
the code (`-1`) and the mathematical sign (`0`) differ. -/
theorem ApplyDeadzone_eq_reference_witness :
    (0 : ℚ) ≤ 0 ∧ (0 : ℚ) < 1 ∧
    GamepadState.ApplyDeadzone 0 0 = ApplyDeadzone_reference 0 0 :=
  ⟨le_refl _, by norm_num, ApplyDeadzone_eq_reference 0 0 (le_refl _) (by norm_num)⟩

/-- C8, as stated, fails: with the deadzone `-1` the value `0` is not inside the dead band,
the code takes the sign of `0` to be `-1`, and `ApplyDeadzone(0, -1) = -1/2`; so
`ApplyDeadzone(-0, -1) = -1/2` is not `-ApplyDeadzone(0, -1) = 1/2`. -/
theorem ApplyDeadzone_not_odd_at_zero_negative_deadzone :
    GamepadState.ApplyDeadzone 0 (-1) = -1 / 2 ∧
    GamepadState.ApplyDeadzone (-0) (-1) ≠ -GamepadState.ApplyDeadzone 0 (-1) := by
  have h : GamepadState.ApplyDeadzone 0 (-1) = -1 / 2 := by
    norm_num [GamepadState.ApplyDeadzone]
  refine ⟨h, ?_⟩
  rw [neg_zero, h]
  norm_num

/-- C8, amended: `ApplyDeadzone` is odd in its value for every deadzone that is not
negative, and for a negative deadzone at every value other than `0`:
`ApplyDeadzone(-v, dz) = -ApplyDeadzone(v, dz)` whenever `dz >= 0` or `v != 0`.  The
deadzone `1` is left out: there the rescale divides by `1 - dz = 0`, which the exact
arithmetic of this development does not describe. -/
theorem ApplyDeadzone_odd (value deadzone : ℚ) (_hdiv : deadzone ≠ 1)
    (h : 0 ≤ deadzone ∨ value ≠ 0) :
    GamepadState.ApplyDeadzone (-value) deadzone
      = -GamepadState.ApplyDeadzone value deadzone := by
  by_cases hband : |value| < deadzone
  · rw [ApplyDeadzone_of_abs_lt _ _ hband, ApplyDeadzone_of_abs_lt _ _ (by simpa using hband)]
    simp
  · have hband' : ¬ |(-value)| < deadzone := by simpa using hband
    rcases lt_trichotomy value 0 with hv | hv | hv
    · rw [ApplyDeadzone_of_nonpos _ _ hband hv.le,
        ApplyDeadzone_of_pos _ _ hband' (by linarith)]
      ring
    · subst hv
      have hdz : deadzone = 0 := by
        rcases h with h | h
        · exact le_antisymm (by simpa using hband) h
        · exact absurd rfl h
      subst hdz
      simp [GamepadState.ApplyDeadzone]
    · rw [ApplyDeadzone_of_pos _ _ hband hv,
        ApplyDeadzone_of_nonpos _ _ hband' (by linarith)]
      ring

/-- Witness of `ApplyDeadzone_odd` at `v = 1/2`, `dz = 3/20`. -/
theorem ApplyDeadzone_odd_witness :
    (3 / 20 : ℚ) ≠ 1 ∧ ((0 : ℚ) ≤ 3 / 20 ∨ (1 / 2 : ℚ) ≠ 0) ∧
    GamepadState.ApplyDeadzone (-(1 / 2)) (3 / 20)
      = -GamepadState.ApplyDeadzone (1 / 2) (3 / 20) :=
  ⟨by norm_num, Or.inl (by norm_num),
    ApplyDeadzone_odd (1 / 2) (3 / 20) (by norm_num) (Or.inl (by norm_num))⟩

/-- C9: for every deadzone `dz` with `0 < dz < 1`, `ApplyDeadzone(v, dz) = 0` for every `v`
with `|v| < dz`, `ApplyDeadzone(dz, dz)` is exactly `0`, and `ApplyDeadzone(1, dz)` is
exactly `1`. -/
theorem ApplyDeadzone_band_and_endpoints (deadzone : ℚ)
    (h₀ : 0 < deadzone) (h₁ : deadzone < 1) :
    (∀ value : ℚ, |value| < deadzone → GamepadState.ApplyDeadzone value deadzone = 0) ∧
    GamepadState.ApplyDeadzone deadzone deadzone = 0 ∧
    GamepadState.ApplyDeadzone 1 deadzone = 1 := by
  refine ⟨fun value hv => ApplyDeadzone_of_abs_lt value deadzone hv, ?_, ?_⟩
  · rw [ApplyDeadzone_of_pos _ _ (by rw [abs_of_pos h₀]; exact lt_irrefl _) h₀]
    simp
  · rw [ApplyDeadzone_of_pos _ _ (by rw [abs_one]; exact not_lt.mpr h₁.le) one_pos]
    exact div_self (by linarith)

/-- Witness of `ApplyDeadzone_band_and_endpoints` at the stick deadzone `3/20`. -/
theorem ApplyDeadzone_band_and_endpoints_witness :
    (0 : ℚ) < 3 / 20 ∧ (3 / 20 : ℚ) < 1 ∧
    ((∀ value : ℚ, |value| < 3 / 20 → GamepadState.ApplyDeadzone value (3 / 20) = 0) ∧
    GamepadState.ApplyDeadzone (3 / 20) (3 / 20) = 0 ∧
    GamepadState.ApplyDeadzone 1 (3 / 20) = 1) :=
  ⟨by norm_num, by norm_num,
    ApplyDeadzone_band_and_endpoints (3 / 20) (by norm_num) (by norm_num)⟩

/-! ## Digital flags of the analog triggers -/

/-- C10: after every update tick with a device present, `buttonL2` is true if and only if
`leftTrigger` is strictly greater than `0.5`, and `buttonR2` is true if and only if
`rightTrigger` is strictly greater than `0.5`; a trigger value of exactly `0.5` gives
false, the comparison with the threshold constant being strict. -/
theorem UpdateState_trigger_flags (s : State) (raw : RawFrame)
    (hdev : s.s_pGamepad ≠ none) :
    ((UpdateState s raw).s_currentState.buttonL2 = true ↔
      (UpdateState s raw).s_currentState.leftTrigger > 1 / 2) ∧
    ((UpdateState s raw).s_currentState.buttonR2 = true ↔
      (UpdateState s raw).s_currentState.rightTrigger > 1 / 2) ∧
    ((UpdateState s raw).s_currentState.leftTrigger = 1 / 2 →
      (UpdateState s raw).s_currentState.buttonL2 = false) ∧
    ((UpdateState s raw).s_currentState.rightTrigger = 1 / 2 →
      (UpdateState s raw).s_currentState.buttonR2 = false) ∧
    decide ((1 / 2 : ℚ) > TRIGGER_DIGITAL_THRESHOLD) = false := by
  rw [UpdateState_some s raw hdev]
  simp only [decide_eq_true_eq, decide_eq_false_iff_not, TRIGGER_DIGITAL_THRESHOLD]
  refine ⟨trivial, trivial, ?_, ?_, lt_irrefl _⟩
  · intro h; rw [h]; exact lt_irrefl _
  · intro h; rw [h]; exact lt_irrefl _

/-- Witness of `UpdateState_trigger_flags`: device 7 open, left trigger read as `16384`
(flag true), right trigger read as `16383` (flag false). -/
theorem UpdateState_trigger_flags_witness :
    freshState.s_pGamepad ≠ none ∧
    (UpdateState freshState triggerFrame).s_currentState.buttonL2 = true ∧
    (UpdateState freshState triggerFrame).s_currentState.buttonR2 = false ∧
    (((UpdateState freshState triggerFrame).s_currentState.buttonL2 = true ↔
      (UpdateState freshState triggerFrame).s_currentState.leftTrigger > 1 / 2) ∧
    ((UpdateState freshState triggerFrame).s_currentState.buttonR2 = true ↔
      (UpdateState freshState triggerFrame).s_currentState.rightTrigger > 1 / 2) ∧
    ((UpdateState freshState triggerFrame).s_currentState.leftTrigger = 1 / 2 →
      (UpdateState freshState triggerFrame).s_currentState.buttonL2 = false) ∧
    ((UpdateState freshState triggerFrame).s_currentState.rightTrigger = 1 / 2 →
      (UpdateState freshState triggerFrame).s_currentState.buttonR2 = false) ∧
    decide ((1 / 2 : ℚ) > TRIGGER_DIGITAL_THRESHOLD) = false) := by
  refine ⟨by simp [freshState], ?_, ?_,
    UpdateState_trigger_flags freshState triggerFrame (by simp [freshState])⟩
  · rw [UpdateState_some freshState triggerFrame (by simp [freshState])]
    norm_num [triggerFrame, normalizeTrigger, Clamp, TRIGGER_DIGITAL_THRESHOLD]
  · rw [UpdateState_some freshState triggerFrame (by simp [freshState])]
    have hne : SDL_GamepadAxis.RIGHT_TRIGGER ≠ SDL_GamepadAxis.LEFT_TRIGGER := by decide
    norm_num [triggerFrame, normalizeTrigger, Clamp, TRIGGER_DIGITAL_THRESHOLD, hne]

/-! ## Full-scale stick readings -/

/-- C12: after every update tick with a device present, each of the sixteen directly read
button flags equals the raw read of its own source button in that tick:
`buttonDown` = SOUTH, `buttonRight` = EAST, `buttonLeft` = WEST, `buttonUp` = NORTH,
`buttonL1` = LEFT_SHOULDER, `buttonR1` = RIGHT_SHOULDER, `buttonL3` = LEFT_STICK,
`buttonR3` = RIGHT_STICK, `buttonStart` = START, `buttonSelect` = BACK,
`buttonGuide` = GUIDE, `buttonMisc` = MISC1, and the four d-pad flags = DPAD_UP, DPAD_DOWN,
DPAD_LEFT, DPAD_RIGHT. -/
theorem UpdateState_copies_buttons (s : State) (raw : RawFrame)
    (hdev : s.s_pGamepad ≠ none) :
    (UpdateState s raw).s_currentState.buttonDown = raw.SDL_GetGamepadButton .SOUTH ∧
    (UpdateState s raw).s_currentState.buttonRight = raw.SDL_GetGamepadButton .EAST ∧
    (UpdateState s raw).s_currentState.buttonLeft = raw.SDL_GetGamepadButton .WEST ∧
    (UpdateState s raw).s_currentState.buttonUp = raw.SDL_GetGamepadButton .NORTH ∧
    (UpdateState s raw).s_currentState.buttonL1
      = raw.SDL_GetGamepadButton .LEFT_SHOULDER ∧
    (UpdateState s raw).s_currentState.buttonR1
      = raw.SDL_GetGamepadButton .RIGHT_SHOULDER ∧
    (UpdateState s raw).s_currentState.buttonL3 = raw.SDL_GetGamepadButton .LEFT_STICK ∧
    (UpdateState s raw).s_currentState.buttonR3 = raw.SDL_GetGamepadButton .RIGHT_STICK ∧
    (UpdateState s raw).s_currentState.buttonStart = raw.SDL_GetGamepadButton .START ∧
    (UpdateState s raw).s_currentState.buttonSelect = raw.SDL_GetGamepadButton .BACK ∧
    (UpdateState s raw).s_currentState.buttonGuide = raw.SDL_GetGamepadButton .GUIDE ∧
    (UpdateState s raw).s_currentState.buttonMisc = raw.SDL_GetGamepadButton .MISC1 ∧
    (UpdateState s raw).s_currentState.dpadUp = raw.SDL_GetGamepadButton .DPAD_UP ∧
    (UpdateState s raw).s_currentState.dpadDown = raw.SDL_GetGamepadButton .DPAD_DOWN ∧
    (UpdateState s raw).s_currentState.dpadLeft = raw.SDL_GetGamepadButton .DPAD_LEFT ∧
    (UpdateState s raw).s_currentState.dpadRight
      = raw.SDL_GetGamepadButton .DPAD_RIGHT := by
  rw [UpdateState_some s raw hdev]
  exact ⟨rfl, rfl, rfl, rfl, rfl, rfl, rfl, rfl, rfl, rfl, rfl, rfl, rfl, rfl, rfl, rfl⟩

/-- Witness of `UpdateState_copies_buttons`: device 7 open, only the BACK button down; the
select flag is the one that is set. -/
theorem UpdateState_copies_buttons_witness :
    freshState.s_pGamepad ≠ none ∧
    (UpdateState freshState (frameWith .BACK true)).s_currentState.buttonSelect = true ∧
    (UpdateState freshState (frameWith .BACK true)).s_currentState.buttonStart = false :=
  have h := UpdateState_copies_buttons freshState (frameWith .BACK true)
    (by simp [freshState])
  ⟨by simp [freshState], h.2.2.2.2.2.2.2.2.2.1.trans rfl, h.2.2.2.2.2.2.2.2.1.trans rfl⟩

/-- C13: deadzone shaping is per axis.  For any two states with a device present and any
two raw frames that agree on the reading of one stick axis, whatever the other axes read,
the stick field of that axis is the same after `UpdateState`; and each stick field is
`ApplyDeadzone(Clamp(raw / 32767, -1, 1), 0.15)` of the reading of its own axis alone. -/
theorem UpdateState_stick_per_axis (s s' : State) (raw raw' : RawFrame)
    (hdev : s.s_pGamepad ≠ none) (hdev' : s'.s_pGamepad ≠ none) :
    ((raw.SDL_GetGamepadAxis .LEFTX = raw'.SDL_GetGamepadAxis .LEFTX →
        (UpdateState s raw).s_currentState.leftStickX
          = (UpdateState s' raw').s_currentState.leftStickX) ∧
      (raw.SDL_GetGamepadAxis .LEFTY = raw'.SDL_GetGamepadAxis .LEFTY →
        (UpdateState s raw).s_currentState.leftStickY
          = (UpdateState s' raw').s_currentState.leftStickY) ∧
      (raw.SDL_GetGamepadAxis .RIGHTX = raw'.SDL_GetGamepadAxis .RIGHTX →
        (UpdateState s raw).s_currentState.rightStickX
          = (UpdateState s' raw').s_currentState.rightStickX) ∧
      (raw.SDL_GetGamepadAxis .RIGHTY = raw'.SDL_GetGamepadAxis .RIGHTY →
        (UpdateState s raw).s_currentState.rightStickY
          = (UpdateState s' raw').s_currentState.rightStickY)) ∧
    ((UpdateState s raw).s_currentState.leftStickX
        = GamepadState.ApplyDeadzone
            (Clamp ((raw.SDL_GetGamepadAxis .LEFTX : ℚ) / 32767) (-1) 1) (3 / 20) ∧
      (UpdateState s raw).s_currentState.leftStickY
        = GamepadState.ApplyDeadzone
            (Clamp ((raw.SDL_GetGamepadAxis .LEFTY : ℚ) / 32767) (-1) 1) (3 / 20) ∧
      (UpdateState s raw).s_currentState.rightStickX
        = GamepadState.ApplyDeadzone
            (Clamp ((raw.SDL_GetGamepadAxis .RIGHTX : ℚ) / 32767) (-1) 1) (3 / 20) ∧
      (UpdateState s raw).s_currentState.rightStickY
        = GamepadState.ApplyDeadzone
            (Clamp ((raw.SDL_GetGamepadAxis .RIGHTY : ℚ) / 32767) (-1) 1) (3 / 20)) := by
  rw [UpdateState_some s raw hdev, UpdateState_some s' raw' hdev']
  refine ⟨⟨?_, ?_, ?_, ?_⟩, rfl, rfl, rfl, rfl⟩ <;>
  · intro h
    simp only [h]

/-- Witness of `UpdateState_stick_per_axis`: two frames with the same left X reading
`20000` and left Y readings `0` and `30000`; `leftStickX` is the same, whether the prior
state is `freshState` or `heldState`. -/
theorem UpdateState_stick_per_axis_witness :
    freshState.s_pGamepad ≠ none ∧ heldState.s_pGamepad ≠ none ∧
    (leftStickAt 20000 0).SDL_GetGamepadAxis .LEFTX
      = (leftStickAt 20000 30000).SDL_GetGamepadAxis .LEFTX ∧
    (leftStickAt 20000 0).SDL_GetGamepadAxis .LEFTY
      ≠ (leftStickAt 20000 30000).SDL_GetGamepadAxis .LEFTY ∧
    (UpdateState freshState (leftStickAt 20000 0)).s_currentState.leftStickX
      = (UpdateState heldState (leftStickAt 20000 30000)).s_currentState.leftStickX :=
  ⟨by simp [freshState], by simp [heldState], rfl, by simp [leftStickAt],
    (UpdateState_stick_per_axis freshState heldState (leftStickAt 20000 0)
      (leftStickAt 20000 30000) (by simp [freshState]) (by simp [heldState])).1.1 rfl⟩

/-- C14: with a device present, the current snapshot produced by `UpdateState` is a function
of that tick's raw frame only: for any two prior states, whatever their current and
previous snapshots, the same raw reads give equal current snapshots, in all 25 fields. -/
theorem UpdateState_current_depends_on_frame_only (s s' : State) (raw : RawFrame)
    (hdev : s.s_pGamepad ≠ none) (hdev' : s'.s_pGamepad ≠ none) :
    (UpdateState s raw).s_currentState = (UpdateState s' raw).s_currentState := by
  rw [UpdateState_some s raw hdev, UpdateState_some s' raw hdev']

/-- Witness of `UpdateState_current_depends_on_frame_only`: `freshState` and `heldState`
differ in both snapshots and give the same current snapshot on the same frame. -/
theorem UpdateState_current_depends_on_frame_only_witness :
    freshState.s_pGamepad ≠ none ∧ heldState.s_pGamepad ≠ none ∧
    freshState.s_currentState ≠ heldState.s_currentState ∧
    freshState.s_prevState ≠ heldState.s_prevState ∧
    (UpdateState freshState extremeFrame).s_currentState
      = (UpdateState heldState extremeFrame).s_currentState :=
  ⟨by simp [freshState], by simp [heldState], by simp [freshState, heldState],
    by simp [freshState, heldState],
    UpdateState_current_depends_on_frame_only freshState heldState extremeFrame
      (by simp [freshState]) (by simp [heldState])⟩

/-! ## Continuity and sign of the deadzone function -/

lemma ApplyDeadzoneOver_rat (value deadzone : ℚ) :
    GamepadState.ApplyDeadzoneOver value deadzone
      = GamepadState.ApplyDeadzone value deadzone := rfl

lemma ApplyDeadzoneOver_cast (value deadzone : ℚ) :
    ((GamepadState.ApplyDeadzone value deadzone : ℚ) : ℝ)
      = GamepadState.ApplyDeadzoneOver (value : ℝ) (deadzone : ℝ) := by
  unfold GamepadState.ApplyDeadzone GamepadState.ApplyDeadzoneOver
  have habs : |(value : ℝ)| < (deadzone : ℝ) ↔ |value| < deadzone := by
    rw [← Rat.cast_abs]; exact Rat.cast_lt
  have hpos : (value : ℝ) > 0 ↔ value > 0 := Rat.cast_pos
  by_cases h : |value| < deadzone
  · rw [if_pos h, if_pos (habs.mpr h)]; simp
  · rw [if_neg h, if_neg (fun h' => h (habs.mp h'))]
    by_cases hv : value > 0
    · simp only [if_pos hv, if_pos (hpos.mpr hv)]
      push_cast
      rfl
    · simp only [if_neg hv, if_neg (fun h' => hv (hpos.mp h'))]
      push_cast
      rfl

lemma ApplyDeadzoneOver_eq_max {K : Type} [LinearOrderedField K] (value deadzone : K)
    (h₀ : 0 ≤ deadzone) :
    GamepadState.ApplyDeadzoneOver value deadzone
      = (max (value - deadzone) 0 - max (-value - deadzone) 0) / (1 - deadzone) := by
  unfold GamepadState.ApplyDeadzoneOver
  by_cases h : |value| < deadzone
  · rw [if_pos h]
    obtain ⟨hl, hr⟩ := abs_lt.mp h
    rw [max_eq_right (by linarith), max_eq_right (by linarith)]
    simp
  · rw [if_neg h]
    have hge : deadzone ≤ |value| := not_lt.mp h
    by_cases hv : value > 0
    · rw [abs_of_pos hv] at hge ⊢
      simp only [if_pos hv]
      rw [max_eq_left (by linarith), max_eq_right (by linarith)]
      ring
    · have hv' : value ≤ 0 := not_lt.mp hv
      rw [abs_of_nonpos hv'] at hge ⊢
      simp only [if_neg hv]
      rw [max_eq_right (by linarith), max_eq_left (by linarith)]
      ring

lemma ApplyDeadzoneOver_continuous (deadzone : ℝ) (h₀ : 0 ≤ deadzone) :
    Continuous (fun value : ℝ => GamepadState.ApplyDeadzoneOver value deadzone) := by
  have hfun : (fun value : ℝ => GamepadState.ApplyDeadzoneOver value deadzone)
      = fun value : ℝ =>
        (max (value - deadzone) 0 - max (-value - deadzone) 0) / (1 - deadzone) := by
    funext value
    exact ApplyDeadzoneOver_eq_max value deadzone h₀
  rw [hfun]
  exact (((continuous_id.sub continuous_const).max continuous_const).sub
    ((continuous_neg.sub continuous_const).max continuous_const)).div_const _

/-- C15: for every deadzone `dz` with `0 < dz < 1`, the map `v -> ApplyDeadzone(v, dz)` is
continuous on the reals; in particular it is continuous at the dead-band boundaries
`v = dz` and `v = -dz`, where its value is `0`.  The real map is the body of the source
function read over `ℝ`, and on rational arguments it is the source function. -/
theorem ApplyDeadzone_continuous_on_reals (deadzone : ℝ) (h₀ : 0 < deadzone)
    (_h₁ : deadzone < 1) :
    Continuous (fun value : ℝ => GamepadState.ApplyDeadzoneOver value deadzone) ∧
    ContinuousAt (fun value : ℝ => GamepadState.ApplyDeadzoneOver value deadzone)
      deadzone ∧
    ContinuousAt (fun value : ℝ => GamepadState.ApplyDeadzoneOver value deadzone)
      (-deadzone) ∧
    GamepadState.ApplyDeadzoneOver deadzone deadzone = 0 ∧
    GamepadState.ApplyDeadzoneOver (-deadzone) deadzone = 0 ∧
    (∀ v dz : ℚ, ((GamepadState.ApplyDeadzone v dz : ℚ) : ℝ)
      = GamepadState.ApplyDeadzoneOver (v : ℝ) (dz : ℝ)) := by
  have hc := ApplyDeadzoneOver_continuous deadzone h₀.le
  refine ⟨hc, hc.continuousAt, hc.continuousAt, ?_, ?_, ApplyDeadzoneOver_cast⟩
  · rw [ApplyDeadzoneOver_eq_max _ _ h₀.le]
    rw [max_eq_right (by linarith), max_eq_right (by linarith)]
    simp
  · rw [ApplyDeadzoneOver_eq_max _ _ h₀.le]
    rw [max_eq_right (by linarith), max_eq_right (by linarith)]
    simp

/-- Witness of `ApplyDeadzone_continuous_on_reals` at the stick deadzone `3/20`. -/
theorem ApplyDeadzone_continuous_on_reals_witness :
    (0 : ℝ) < 3 / 20 ∧ (3 / 20 : ℝ) < 1 ∧
    Continuous (fun value : ℝ => GamepadState.ApplyDeadzoneOver value (3 / 20)) :=
  ⟨by norm_num, by norm_num,
    (ApplyDeadzone_continuous_on_reals (3 / 20) (by norm_num) (by norm_num)).1⟩

/-- C16: `ApplyDeadzone` is sign-preserving outside the dead band: for every deadzone `dz`
with `0 <= dz < 1` and every `v` with `|v| > dz`, `ApplyDeadzone(v, dz)` is strictly
positive when `v > 0` and strictly negative when `v < 0`. -/
theorem ApplyDeadzone_sign_preserving (value deadzone : ℚ)
    (_h₀ : 0 ≤ deadzone) (h₁ : deadzone < 1) (hv : |value| > deadzone) :
    (value > 0 → GamepadState.ApplyDeadzone value deadzone > 0) ∧
    (value < 0 → GamepadState.ApplyDeadzone value deadzone < 0) := by
  have hden : 0 < 1 - deadzone := by linarith
  have hband : ¬ |value| < deadzone := not_lt.mpr hv.le
  constructor
  · intro hpos
    rw [ApplyDeadzone_of_pos _ _ hband hpos]
    rw [abs_of_pos hpos] at hv
    exact div_pos (by linarith) hden
  · intro hneg
    rw [ApplyDeadzone_of_nonpos _ _ hband hneg.le]
    rw [abs_of_neg hneg] at hv
    have : 0 < (-value - deadzone) / (1 - deadzone) := div_pos (by linarith) hden
    linarith

/-- Witness of `ApplyDeadzone_sign_preserving` at `v = -1/2`, `dz = 3/20`. -/
theorem ApplyDeadzone_sign_preserving_witness :
    (0 : ℚ) ≤ 3 / 20 ∧ (3 / 20 : ℚ) < 1 ∧ |(-(1 / 2) : ℚ)| > 3 / 20 ∧
    GamepadState.ApplyDeadzone (-(1 / 2)) (3 / 20) < 0 :=
  ⟨by norm_num, by norm_num, by norm_num [abs_of_neg],
    (ApplyDeadzone_sign_preserving (-(1 / 2)) (3 / 20) (by norm_num) (by norm_num)
      (by norm_num [abs_of_neg])).2 (by norm_num)⟩

/-! ## Initialisation and the disconnected state -/

lemma OpenGamepad_currentState (s : State) (sdl : SDL_Devices) (id : SDL_JoystickID) :
    (OpenGamepad s sdl id).s_currentState = s.s_currentState := by
  unfold OpenGamepad
  cases s.s_pGamepad <;> cases sdl.SDL_OpenGamepad id <;> rfl

lemma OpenGamepad_prevState (s : State) (sdl : SDL_Devices) (id : SDL_JoystickID) :
    (OpenGamepad s sdl id).s_prevState = s.s_prevState := by
  unfold OpenGamepad
  cases s.s_pGamepad <;> cases sdl.SDL_OpenGamepad id <;> rfl

lemma Initialize_ok (s : State) (sdlInit : Bool) (sdl : SDL_Devices)
    (hok : (Initialize s sdlInit sdl).2 = true) : sdlInit = true := by
  cases sdlInit
  · simp [Initialize] at hok
  · rfl

lemma Initialize_true_snapshots (s : State) (sdl : SDL_Devices) :
    (Initialize s true sdl).1.s_currentState = GamepadState.default ∧
    (Initialize s true sdl).1.s_prevState = GamepadState.default := by
  unfold Initialize
  cases sdl.SDL_GetGamepads <;>
    simp [OpenGamepad_currentState, OpenGamepad_prevState, GamepadState.default]

/-- C17: after a successful `Initialize`, both the current and the previous snapshot equal
the default state, whether or not a gamepad was opened, so for every button `IsPressed`,
`IsTrigger` and `IsRelease` are false before the first update tick. -/
theorem Initialize_snapshots_default (s : State) (sdlInit : Bool) (sdl : SDL_Devices)
    (hok : (Initialize s sdlInit sdl).2 = true) :
    (Initialize s sdlInit sdl).1.s_currentState = GamepadState.default ∧
    (Initialize s sdlInit sdl).1.s_prevState = GamepadState.default ∧
    (∀ b : Button,
      IsPressed (Initialize s sdlInit sdl).1 b = false ∧
      IsTrigger (Initialize s sdlInit sdl).1 b = false ∧
      IsRelease (Initialize s sdlInit sdl).1 b = false) := by
  have ht := Initialize_ok s sdlInit sdl hok
  subst ht
  obtain ⟨hc, hp⟩ := Initialize_true_snapshots s sdl
  refine ⟨hc, hp, fun b => ?_⟩
  rw [IsPressed_eq_flag, IsTrigger_eq_flag, IsRelease_eq_flag, hc, hp, default_flag]
  exact ⟨rfl, rfl, rfl⟩

/-- Witness of `Initialize_snapshots_default`, from a state with a held button: once with
device 7 attached, which is opened, and once with nothing attached. -/
theorem Initialize_snapshots_default_witness :
    ((Initialize heldState true oneDevice).2 = true ∧
      (Initialize heldState true oneDevice).1.s_pGamepad = some ⟨1⟩ ∧
      (Initialize heldState true oneDevice).1.s_currentState = GamepadState.default ∧
      (Initialize heldState true oneDevice).1.s_prevState = GamepadState.default) ∧
    ((Initialize heldState true noDevices).2 = true ∧
      (Initialize heldState true noDevices).1.s_pGamepad = none ∧
      (Initialize heldState true noDevices).1.s_currentState = GamepadState.default ∧
      (Initialize heldState true noDevices).1.s_prevState = GamepadState.default) :=
  ⟨⟨rfl, rfl, (Initialize_snapshots_default heldState true oneDevice rfl).1,
      (Initialize_snapshots_default heldState true oneDevice rfl).2.1⟩,
    ⟨rfl, rfl, (Initialize_snapshots_default heldState true noDevices rfl).1,
      (Initialize_snapshots_default heldState true noDevices rfl).2.1⟩⟩

/-! ### No handle, no stale snapshot -/

lemma OpenGamepad_inv (s : State) (sdl : SDL_Devices) (id : SDL_JoystickID)
    (h : s.s_pGamepad = none → s.s_currentState = GamepadState.default) :
    (OpenGamepad s sdl id).s_pGamepad = none →
      (OpenGamepad s sdl id).s_currentState = GamepadState.default := by
  intro hn
  rw [OpenGamepad_currentState]
  apply h
  unfold OpenGamepad at hn
  cases hp : s.s_pGamepad with
  | none => rfl
  | some g => rw [hp] at hn; simp at hn; rw [hp] at hn; cases hn

lemma CloseGamepad_inv (s : State)
    (h : s.s_pGamepad = none → s.s_currentState = GamepadState.default) :
    (CloseGamepad s).s_pGamepad = none →
      (CloseGamepad s).s_currentState = GamepadState.default := by
  intro _
  unfold CloseGamepad
  cases hp : s.s_pGamepad with
  | none => exact h hp
  | some g => rfl

lemma UpdateState_inv (s : State) (raw : RawFrame)
    (h : s.s_pGamepad = none → s.s_currentState = GamepadState.default) :
    (UpdateState s raw).s_pGamepad = none →
      (UpdateState s raw).s_currentState = GamepadState.default := by
  intro hn
  rw [UpdateState_pGamepad] at hn
  rw [UpdateState_none s raw hn, h hn]
  rfl

lemma StopVibration_inv (s : State)
    (h : s.s_pGamepad = none → s.s_currentState = GamepadState.default) :
    (StopVibration s).s_pGamepad = none →
      (StopVibration s).s_currentState = GamepadState.default := h

lemma handleEvent_inv (s : State) (e : SDL_Event)
    (h : s.s_pGamepad = none → s.s_currentState = GamepadState.default) :
    (handleEvent s e).s_pGamepad = none →
      (handleEvent s e).s_currentState = GamepadState.default := by
  cases e with
  | GAMEPAD_ADDED which sdl =>
    simp only [handleEvent]
    cases hp : s.s_pGamepad with
    | none => exact OpenGamepad_inv s sdl which h
    | some g => intro hn; rw [hp] at hn; cases hn
  | GAMEPAD_REMOVED which sdl =>
    simp only [handleEvent]
    split_ifs with hc
    · cases hg : sdl.SDL_GetGamepads with
      | nil => exact CloseGamepad_inv s h
      | cons id rest => exact OpenGamepad_inv _ sdl id (CloseGamepad_inv s h)
    · exact h
  | OTHER => exact h

lemma pollEvents_inv (events : List SDL_Event) (s : State)
    (h : s.s_pGamepad = none → s.s_currentState = GamepadState.default) :
    (pollEvents s events).s_pGamepad = none →
      (pollEvents s events).s_currentState = GamepadState.default := by
  induction events generalizing s with
  | nil => exact h
  | cons e rest ih =>
    have := ih (handleEvent s e) (handleEvent_inv s e h)
    simpa [pollEvents] using this

lemma Update_inv (s : State) (events : List SDL_Event) (raw : RawFrame) (ticks : Nat)
    (h : s.s_pGamepad = none → s.s_currentState = GamepadState.default) :
    (Update s events raw ticks).s_pGamepad = none →
      (Update s events raw ticks).s_currentState = GamepadState.default := by
  have hu := UpdateState_inv (pollEvents s events) raw (pollEvents_inv events s h)
  unfold Update
  simp only
  split_ifs
  · exact StopVibration_inv _ hu
  · exact hu

lemma Initialize_inv (s : State) (sdlInit : Bool) (sdl : SDL_Devices)
    (h : s.s_pGamepad = none → s.s_currentState = GamepadState.default) :
    (Initialize s sdlInit sdl).1.s_pGamepad = none →
      (Initialize s sdlInit sdl).1.s_currentState = GamepadState.default := by
  cases sdlInit with
  | false => simpa [Initialize] using h
  | true => intro _; exact (Initialize_true_snapshots s sdl).1

lemma Step_inv {s s' : State} (hs : Step s s')
    (h : s.s_pGamepad = none → s.s_currentState = GamepadState.default) :
    s'.s_pGamepad = none → s'.s_currentState = GamepadState.default := by
  cases hs with
  | openGamepad sdl id => exact OpenGamepad_inv s sdl id h
  | closeGamepad => exact CloseGamepad_inv s h
  | updateState raw => exact UpdateState_inv s raw h
  | update events raw ticks => exact Update_inv s events raw ticks h
  | finalize => exact CloseGamepad_inv _ (StopVibration_inv s h)
  | stopVibration => exact StopVibration_inv s h
  | again sdlInit sdl => exact Initialize_inv s sdlInit sdl h

/-- C18: in every state reachable from `Initialize` by any sequence of `OpenGamepad`,
`CloseGamepad`, `UpdateState`, `Update` and `Finalize` steps, whenever no gamepad handle is
held the current snapshot equals the default state: no stale analog value or button flag
is observable while disconnected. -/
theorem reachable_disconnected_is_default (s : State) (hr : Reachable s)
    (hnone : s.s_pGamepad = none) : s.s_currentState = GamepadState.default := by
  induction hr with
  | start s₀ sdl => exact (Initialize_true_snapshots s₀ sdl).1
  | step _ hs ih => exact Step_inv hs ih hnone

/-- Witness of `reachable_disconnected_is_default` at `afterRemoval`: every button was down
when device 7 was removed. -/
theorem reachable_disconnected_is_default_witness :
    Reachable afterRemoval ∧ afterRemoval.s_pGamepad = none ∧
    afterRemoval.s_currentState = GamepadState.default :=
  have hr : Reachable afterRemoval :=
    .step (.step (.start State.static oneDevice) (.updateState _ allDownFrame))
      (.update _ [.GAMEPAD_REMOVED 7 noDevices] restFrame 0)
  have hn : afterRemoval.s_pGamepad = none := rfl
  ⟨hr, hn, reachable_disconnected_is_default afterRemoval hr hn⟩

/-! ## The trigger flags in terms of the raw reading -/

lemma normalizeTrigger_gt_half_iff (r : Int) :
    normalizeTrigger r > TRIGGER_DIGITAL_THRESHOLD ↔ 16384 ≤ r := by
  unfold normalizeTrigger Clamp TRIGGER_DIGITAL_THRESHOLD
  split_ifs with h₁ h₂
  · rw [div_lt_iff₀ (by norm_num), zero_mul] at h₁
    have hr : r < 0 := by exact_mod_cast h₁
    constructor
    · intro h; norm_num at h
    · intro h; omega
  · rw [gt_iff_lt, lt_div_iff₀ (by norm_num), one_mul] at h₂
    have hr : 32767 < r := by exact_mod_cast h₂
    constructor
    · intro _; omega
    · intro _; norm_num
  · rw [gt_iff_lt, lt_div_iff₀ (by norm_num)]
    constructor
    · intro h
      have hr : (32767 : ℚ) < 2 * (r : ℚ) := by linarith
      have hz : (32767 : Int) < 2 * r := by exact_mod_cast hr
      omega
    · intro h
      have hq : (16384 : ℚ) ≤ (r : ℚ) := by exact_mod_cast h
      linarith

lemma normalizeTrigger_of_neg (r : Int) (h : r < 0) : normalizeTrigger r = 0 := by
  unfold normalizeTrigger Clamp
  have hq : (r : ℚ) < 0 := by exact_mod_cast h
  rw [if_pos (div_neg_of_neg_of_pos hq (by norm_num))]

/-- C19: in terms of the raw reading, for every signed 16-bit raw trigger axis value `r`
read with a device present, `buttonL2` (respectively `buttonR2`) is true after
`UpdateState` if and only if `r >= 16384`; in particular `r = 16383` gives false, and every
negative `r` gives trigger value `0` and flag false.  It holds for every integer reading,
so the 16-bit range is not needed as an assumption. -/
theorem UpdateState_trigger_flags_of_raw (s : State) (raw : RawFrame)
    (hdev : s.s_pGamepad ≠ none) :
    (((UpdateState s raw).s_currentState.buttonL2 = true ↔
        16384 ≤ raw.SDL_GetGamepadAxis .LEFT_TRIGGER) ∧
      (raw.SDL_GetGamepadAxis .LEFT_TRIGGER = 16383 →
        (UpdateState s raw).s_currentState.buttonL2 = false) ∧
      (raw.SDL_GetGamepadAxis .LEFT_TRIGGER < 0 →
        (UpdateState s raw).s_currentState.leftTrigger = 0 ∧
        (UpdateState s raw).s_currentState.buttonL2 = false)) ∧
    (((UpdateState s raw).s_currentState.buttonR2 = true ↔
        16384 ≤ raw.SDL_GetGamepadAxis .RIGHT_TRIGGER) ∧
      (raw.SDL_GetGamepadAxis .RIGHT_TRIGGER = 16383 →
        (UpdateState s raw).s_currentState.buttonR2 = false) ∧
      (raw.SDL_GetGamepadAxis .RIGHT_TRIGGER < 0 →
        (UpdateState s raw).s_currentState.rightTrigger = 0 ∧
        (UpdateState s raw).s_currentState.buttonR2 = false)) := by
  rw [UpdateState_some s raw hdev]
  simp only [decide_eq_true_eq, decide_eq_false_iff_not, normalizeTrigger_gt_half_iff]
  refine ⟨⟨trivial, ?_, ?_⟩, trivial, ?_, ?_⟩
  · intro h; omega
  · intro h; exact ⟨normalizeTrigger_of_neg _ h, by omega⟩
  · intro h; omega
  · intro h; exact ⟨normalizeTrigger_of_neg _ h, by omega⟩

/-- Witness of `UpdateState_trigger_flags_of_raw`: device 7 open; both triggers read as
`16384` set both flags, both read as `16383` set neither, and both read as `-5` give
trigger value `0`. -/
theorem UpdateState_trigger_flags_of_raw_witness :
    freshState.s_pGamepad ≠ none ∧ (triggersAt 16384).WellFormed ∧
    (UpdateState freshState (triggersAt 16384)).s_currentState.buttonL2 = true ∧
    (UpdateState freshState (triggersAt 16384)).s_currentState.buttonR2 = true ∧
    (UpdateState freshState (triggersAt 16383)).s_currentState.buttonL2 = false ∧
    (UpdateState freshState (triggersAt 16383)).s_currentState.buttonR2 = false ∧
    (UpdateState freshState (triggersAt (-5))).s_currentState.leftTrigger = 0 ∧
    (UpdateState freshState (triggersAt (-5))).s_currentState.buttonL2 = false :=
  have hdev : freshState.s_pGamepad ≠ none := by simp [freshState]
  have hne : SDL_GamepadAxis.RIGHT_TRIGGER ≠ SDL_GamepadAxis.LEFT_TRIGGER := by decide
  have h₁ := UpdateState_trigger_flags_of_raw freshState (triggersAt 16384) hdev
  have h₂ := UpdateState_trigger_flags_of_raw freshState (triggersAt 16383) hdev
  have h₃ := UpdateState_trigger_flags_of_raw freshState (triggersAt (-5)) hdev
  ⟨hdev, by intro a; cases a <;> simp [triggersAt, IsSint16],
    h₁.1.1.mpr (by simp [triggersAt]), h₁.2.1.mpr (by simp [triggersAt, hne]),
    h₂.1.2.1 (by simp [triggersAt]), h₂.2.2.1 (by simp [triggersAt, hne]),
    (h₃.1.2.2 (by simp [triggersAt])).1, (h₃.1.2.2 (by simp [triggersAt])).2⟩

/-! ### An update tick with no device present -/

end GameController
